import Mathlib

/-
Verification of the hercules option-underwriting core.

Shallow embedding conventions:
* JavaScript numbers are modelled as rationals (ℚ); `number | null` fields
  become `Option ℚ`.  Division by zero only arises on inputs the code
  rejects, so the rational convention (x / 0 = 0) is harmless.
* String reason messages are display-only in the source (they never drive
  control flow), so disqualification reasons are modelled by their codes.
* `JsOpt` models a TypeScript `T | null | undefined` field in the one place
  (ExplanationInput.tradeDte) where `undefined` and `null` behave
  differently at runtime.
* Calendar dates are modelled as whole-day offsets from the evaluation
  instant (`MacroEvent.date : ℤ` stands for the source's ISO date string).
-/

namespace Hercules

/-- Option side, `src/lib/types/strategy.ts`. -/
inductive OptionSide where
  | put
  | call
deriving DecidableEq, Repr

/-- Strategy type, `src/lib/types/strategy.ts`. -/
inductive StrategyType where
  | CSP
  | PCS
  | CCS
  | CC
deriving DecidableEq, Repr

/-- Market regime, `src/lib/types/trend.ts`. -/
inductive MarketRegime where
  | BULL
  | NEUTRAL
  | BEAR
deriving DecidableEq, Repr

/-- Risk flag union, `src/lib/types/risk.ts` (values collected from the code). -/
inductive RiskFlag where
  | RISK_EARNINGS_WITHIN_TRADE
  | RISK_MACRO_EVENT
  | RISK_IV_SPIKE
  | RISK_TREND_CONFLICT
  | RISK_SECTOR_CONCENTRATION
  | RISK_CORRELATED_EXPOSURE
  | EARNINGS_SOON
  | MACRO_EVENT
deriving DecidableEq, Repr

/-- Option contract, `src/lib/types/options.ts`. -/
structure OptionContract where
  symbol : String
  underlying : String
  side : OptionSide
  expiration : String
  strike : ℚ
  bid : ℚ
  ask : ℚ
  last : Option ℚ
  openInterest : ℚ
  volume : ℚ
  impliedVol : ℚ
  delta : Option ℚ
  theta : Option ℚ
deriving DecidableEq, Repr

/-- Option chain snapshot, `src/lib/types/options.ts`. -/
structure OptionChainSnapshot where
  underlying : String
  asOf : String
  contracts : List OptionContract
deriving DecidableEq, Repr

namespace StrikeFinder

/-- Reason codes of `src/lib/types/strike.ts` (messages are display-only). -/
inductive StrikeFinderReasonCode where
  | NO_TRADE
  | NO_VALID_SHORT_STRIKE
  | NO_VALID_LONG_STRIKE
  | INSUFFICIENT_CREDIT
  | POOR_CREDIT_TO_WIDTH
deriving DecidableEq, Repr

/-- Strike candidate, `src/lib/types/strike.ts`. -/
structure StrikeCandidate where
  strategy : StrategyType
  shortStrike : ℚ
  longStrike : Option ℚ
  credit : ℚ
  maxLoss : ℚ
  breakeven : ℚ
  thetaPerDay : ℚ
  pop : ℚ
  shortDelta : Option ℚ
  reasons : List StrikeFinderReasonCode
deriving DecidableEq, Repr

/-- Strike finder configuration, `src/lib/types/strike.ts` (richer variant). -/
structure StrikeFinderConfig where
  allowAtm : Bool
  minShortBid : ℚ
  maxSpreadPct : ℚ
  minOpenInterest : ℚ
  minVolume : ℚ
  minCredit : ℚ
  minCreditPct : ℚ
  cspMinOtmPct : ℚ
  cspMaxOtmPct : ℚ
  cspTargetDelta : ℚ
  cspDeltaMin : ℚ
  cspDeltaMax : ℚ
  pcsMinOtmPct : ℚ
  pcsMaxOtmPct : ℚ
  pcsTargetDelta : ℚ
  pcsDeltaMin : ℚ
  pcsDeltaMax : ℚ
  ccsMinOtmPct : ℚ
  ccsMaxOtmPct : ℚ
  ccsTargetDelta : ℚ
  ccsDeltaMin : ℚ
  ccsDeltaMax : ℚ
  ccMinOtmPct : ℚ
  ccMaxOtmPct : ℚ
  ccTargetDelta : ℚ
  ccDeltaMin : ℚ
  ccDeltaMax : ℚ
  spreadWidthMin : ℚ
  spreadWidthMax : ℚ

/-- DEFAULT_CONFIG of `src/lib/strategy/strike-finder.ts` with the
environment variables unset, so every `parseEnvNumber` fallback applies
and `STRIKE_ALLOW_ATM` is not `"true"`. -/
def DEFAULT_CONFIG : StrikeFinderConfig where
  allowAtm := false
  minShortBid := 0.05
  maxSpreadPct := 0.2
  minOpenInterest := 200
  minVolume := 20
  minCredit := 0.1
  minCreditPct := 0.15
  cspMinOtmPct := 0.05
  cspMaxOtmPct := 0.3
  cspTargetDelta := 0.23
  cspDeltaMin := 0.18
  cspDeltaMax := 0.28
  pcsMinOtmPct := 0.03
  pcsMaxOtmPct := 0.25
  pcsTargetDelta := 0.2
  pcsDeltaMin := 0.18
  pcsDeltaMax := 0.22
  ccsMinOtmPct := 0.03
  ccsMaxOtmPct := 0.25
  ccsTargetDelta := 0.18
  ccsDeltaMin := 0.15
  ccsDeltaMax := 0.2
  ccMinOtmPct := 0.03
  ccMaxOtmPct := 0.2
  ccTargetDelta := 0.2
  ccDeltaMin := 0.15
  ccDeltaMax := 0.25
  spreadWidthMin := 3
  spreadWidthMax := 10

/-- Per-strategy strike configuration, `strike-finder.ts`. -/
structure StrategyStrikeConfig where
  minOtmPct : ℚ
  maxOtmPct : ℚ
  targetDelta : ℚ
  deltaMin : ℚ
  deltaMax : ℚ
  side : OptionSide
deriving DecidableEq, Repr

/-- calcOtmPct of `strike-finder.ts`. -/
def calcOtmPct (underlying strike : ℚ) (side : OptionSide) : ℚ :=
  match side with
  | .put => (underlying - strike) / underlying
  | .call => (strike - underlying) / underlying

/-- isValidOtm of `strike-finder.ts`. -/
def isValidOtm (otmPct : ℚ) (config : StrikeFinderConfig) (minOtm maxOtm : ℚ) : Bool :=
  if !config.allowAtm && decide (otmPct ≤ 0) then false
  else decide (minOtm ≤ otmPct) && decide (otmPct ≤ maxOtm)

/-- inDeltaBand of `strike-finder.ts`. -/
def inDeltaBand (delta : Option ℚ) (lo hi : ℚ) : Bool :=
  match delta with
  | none => false
  | some d => decide (lo ≤ |d|) && decide (|d| ≤ hi)

/-- calcMid of `strike-finder.ts`. -/
def calcMid (bid ask : ℚ) : ℚ := (bid + ask) / 2

/-- calcSpreadPct of `strike-finder.ts`; `none` stands for the JavaScript
`Infinity` returned when the mid price is non-positive (callers reject
that case through `Number.isFinite`). -/
def calcSpreadPct (bid ask : ℚ) : Option ℚ :=
  let mid := calcMid bid ask
  if mid ≤ 0 then none else some ((ask - bid) / mid)

/-- isLiquidShort of `strike-finder.ts`. -/
def isLiquidShort (contract : OptionContract) (config : StrikeFinderConfig) : Bool :=
  if contract.bid < config.minShortBid then false
  else if contract.ask ≤ 0 then false
  else
    match calcSpreadPct contract.bid contract.ask with
    | none => false
    | some spreadPct =>
      if config.maxSpreadPct < spreadPct then false
      else if contract.openInterest < config.minOpenInterest then false
      else if contract.volume < config.minVolume then false
      else true

/-- getStrategyConfig of `strike-finder.ts`. -/
def getStrategyConfig (strategy : StrategyType) (config : StrikeFinderConfig) :
    StrategyStrikeConfig :=
  match strategy with
  | .CSP =>
    { minOtmPct := config.cspMinOtmPct
      maxOtmPct := config.cspMaxOtmPct
      targetDelta := config.cspTargetDelta
      deltaMin := config.cspDeltaMin
      deltaMax := config.cspDeltaMax
      side := .put }
  | .PCS =>
    { minOtmPct := config.pcsMinOtmPct
      maxOtmPct := config.pcsMaxOtmPct
      targetDelta := config.pcsTargetDelta
      deltaMin := config.pcsDeltaMin
      deltaMax := config.pcsDeltaMax
      side := .put }
  | .CCS =>
    { minOtmPct := config.ccsMinOtmPct
      maxOtmPct := config.ccsMaxOtmPct
      targetDelta := config.ccsTargetDelta
      deltaMin := config.ccsDeltaMin
      deltaMax := config.ccsDeltaMax
      side := .call }
  | .CC =>
    { minOtmPct := config.ccMinOtmPct
      maxOtmPct := config.ccMaxOtmPct
      targetDelta := config.ccTargetDelta
      deltaMin := config.ccDeltaMin
      deltaMax := config.ccDeltaMax
      side := .call }

/-- The spread value used by the sort comparator of selectShortStrike.
Filtered contracts always have a finite spread, so the fallback value 0
for an infinite spread is never reached there. -/
def spreadOrZero (c : OptionContract) : ℚ := (calcSpreadPct c.bid c.ask).getD 0

/-- Distance of a contract's absolute delta from the target delta, as the
sort comparator computes it (`Math.abs((a.delta ?? 0)) - target`, in
absolute value). -/
def deltaDistance (targetDelta : ℚ) (c : OptionContract) : ℚ :=
  |(|c.delta.getD 0|) - targetDelta|

/-- The comparator of the `filtered.sort` call in selectShortStrike,
as the proposition "a sorts strictly before b": closest absolute delta to
the target first, then higher bid, then tighter spread percentage. -/
def shortSortLt (targetDelta : ℚ) (a b : OptionContract) : Bool :=
  let deltaA := |a.delta.getD 0|
  let deltaB := |b.delta.getD 0|
  let distanceA := |deltaA - targetDelta|
  let distanceB := |deltaB - targetDelta|
  if distanceA ≠ distanceB then decide (distanceA < distanceB)
  else if a.bid ≠ b.bid then decide (b.bid < a.bid)
  else decide (spreadOrZero a < spreadOrZero b)

/-- First element of the stably sorted `filtered` array
(`filtered.sort(comparator)[0]`): the earliest element of the list that is
minimal for the comparator's total preorder. -/
def selectBest (targetDelta : ℚ) : List OptionContract → Option OptionContract
  | [] => none
  | h :: t =>
    some (t.foldl (fun best c => if shortSortLt targetDelta c best then c else best) h)

/-- The `sideContracts` local of selectShortStrike. -/
def shortSideContracts (contracts : List OptionContract) (side : OptionSide) :
    List OptionContract :=
  contracts.filter fun c => decide (c.side = side)

/-- The `filtered` local of selectShortStrike: OTM band, delta band and
per-contract liquidity floors all satisfied. -/
def shortFiltered (contracts : List OptionContract) (underlying : ℚ)
    (strategyConfig : StrategyStrikeConfig) (config : StrikeFinderConfig) :
    List OptionContract :=
  (shortSideContracts contracts strategyConfig.side).filter fun c =>
    isValidOtm (calcOtmPct underlying c.strike strategyConfig.side) config
        strategyConfig.minOtmPct strategyConfig.maxOtmPct
      && inDeltaBand c.delta strategyConfig.deltaMin strategyConfig.deltaMax
      && isLiquidShort c config

/-- Diagnostic summary of selectShortStrike. -/
structure ShortStrikeSelection where
  strike : Option OptionContract
  total : ℕ
  otmMatches : ℕ
  deltaMatches : ℕ
  liquidityMatches : ℕ
  bothMatches : ℕ
deriving DecidableEq, Repr

/-- selectShortStrike of `strike-finder.ts`. -/
def selectShortStrike (contracts : List OptionContract) (underlying : ℚ)
    (strategyConfig : StrategyStrikeConfig) (config : StrikeFinderConfig) :
    ShortStrikeSelection :=
  let sideContracts := shortSideContracts contracts strategyConfig.side
  let otmMatches := sideContracts.filter fun c =>
    isValidOtm (calcOtmPct underlying c.strike strategyConfig.side) config
      strategyConfig.minOtmPct strategyConfig.maxOtmPct
  let deltaMatches := sideContracts.filter fun c =>
    inDeltaBand c.delta strategyConfig.deltaMin strategyConfig.deltaMax
  let liquidityMatches := sideContracts.filter fun c => isLiquidShort c config
  let filtered := shortFiltered contracts underlying strategyConfig config
  { strike := selectBest strategyConfig.targetDelta filtered
    total := sideContracts.length
    otmMatches := otmMatches.length
    deltaMatches := deltaMatches.length
    liquidityMatches := liquidityMatches.length
    bothMatches := filtered.length }

/-- selectLongStrike of `strike-finder.ts`: same-side contract whose
distance from the short strike lies in the width band, closest to the
band's midpoint (`reduce` keeps the earlier element on ties). -/
def selectLongStrike (contracts : List OptionContract) (shortStrike : ℚ)
    (side : OptionSide) (widthMin widthMax : ℚ) : Option OptionContract :=
  let candidates := contracts.filter fun c => decide (c.side = side)
  if candidates.isEmpty then none
  else
    let withinRange := candidates.filter fun c =>
      decide (widthMin ≤ |c.strike - shortStrike|) && decide (|c.strike - shortStrike| ≤ widthMax)
    match withinRange with
    | [] => none
    | h :: t =>
      let targetDistance := (widthMin + widthMax) / 2
      some (t.foldl
        (fun best c =>
          if |(|c.strike - shortStrike|) - targetDistance| < |(|best.strike - shortStrike|) - targetDistance|
          then c else best)
        h)

/-- calcCredit of `strike-finder.ts`. -/
def calcCredit (short : OptionContract) (long : Option OptionContract) : ℚ :=
  match long with
  | none => short.bid
  | some l => max (short.bid - l.ask) 0

/-- calcTheta of `strike-finder.ts`. -/
def calcTheta (short : OptionContract) (long : Option OptionContract) : ℚ :=
  short.theta.getD 0 - (match long with | none => 0 | some l => l.theta.getD 0)

/-- calcPop of `strike-finder.ts`. -/
def calcPop (short : OptionContract) : ℚ :=
  match short.delta with
  | none => 0.5
  | some d => max 0 (min 1 (1 - |d|))

/-- buildCandidate of `strike-finder.ts`. -/
def buildCandidate (strategy : StrategyType) (short : OptionContract)
    (long : Option OptionContract) (reasons : List StrikeFinderReasonCode) :
    StrikeCandidate :=
  let credit := calcCredit short long
  let width := match long with | none => 0 | some l => |short.strike - l.strike|
  let maxLoss := match long with
    | none => max (short.strike - credit) 0
    | some _ => max (width - credit) 0
  let breakeven := match short.side with
    | .put => short.strike - credit
    | .call => short.strike + credit
  { strategy := strategy
    shortStrike := short.strike
    longStrike := long.map (·.strike)
    credit := credit
    maxLoss := maxLoss
    breakeven := breakeven
    thetaPerDay := calcTheta short long
    pop := calcPop short
    shortDelta := short.delta
    reasons := reasons }

/-- applyCreditGuardrails of `strike-finder.ts`: the in-place pushes on
`candidate.reasons` are modelled by returning the updated candidate. -/
def applyCreditGuardrails (candidate : StrikeCandidate) (short : OptionContract)
    (long : Option OptionContract) (cfg : StrikeFinderConfig) : StrikeCandidate :=
  let r1 :=
    if candidate.credit < cfg.minCredit
    then candidate.reasons ++ [StrikeFinderReasonCode.INSUFFICIENT_CREDIT]
    else candidate.reasons
  let r2 :=
    match long with
    | none => r1
    | some l =>
      let width := |short.strike - l.strike|
      if 0 < width ∧ candidate.credit / width < cfg.minCreditPct
      then r1 ++ [StrikeFinderReasonCode.POOR_CREDIT_TO_WIDTH]
      else r1
  { candidate with reasons := r2 }

/-- findStrikeCandidate of `strike-finder.ts`.  `cfg` is the merged
configuration (`{ ...DEFAULT_CONFIG, ...config }` at the call boundary). -/
def findStrikeCandidate (chain : OptionChainSnapshot) (underlyingPrice : ℚ)
    (strategy : StrategyType) (cfg : StrikeFinderConfig) : StrikeCandidate :=
  if chain.contracts.isEmpty then
    { strategy := strategy, shortStrike := 0, longStrike := none, credit := 0
      maxLoss := 0, breakeven := 0, thetaPerDay := 0, pop := 0, shortDelta := none
      reasons := [StrikeFinderReasonCode.NO_TRADE] }
  else
    let strategyConfig := getStrategyConfig strategy cfg
    let shortResult := selectShortStrike chain.contracts underlyingPrice strategyConfig cfg
    match shortResult.strike with
    | none =>
      { strategy := strategy, shortStrike := 0, longStrike := none, credit := 0
        maxLoss := 0, breakeven := 0, thetaPerDay := 0, pop := 0, shortDelta := none
        reasons := [StrikeFinderReasonCode.NO_VALID_SHORT_STRIKE] }
    | some short =>
      if strategy = .CSP ∨ strategy = .CC then
        applyCreditGuardrails (buildCandidate strategy short none []) short none cfg
      else
        match selectLongStrike chain.contracts short.strike strategyConfig.side
            cfg.spreadWidthMin cfg.spreadWidthMax with
        | none =>
          { strategy := strategy, shortStrike := short.strike, longStrike := none
            credit := 0, maxLoss := 0, breakeven := 0, thetaPerDay := 0, pop := 0
            shortDelta := short.delta
            reasons := [StrikeFinderReasonCode.NO_VALID_LONG_STRIKE] }
        | some long =>
          applyCreditGuardrails (buildCandidate strategy short (some long) []) short
            (some long) cfg

end StrikeFinder

/-- Trend metrics, `src/lib/types/trend.ts`. -/
structure TrendMetrics where
  price : ℚ
  dma50 : ℚ
  dma100 : ℚ
  dma200 : ℚ
  distanceFrom200DmaPct : ℚ
deriving DecidableEq, Repr

/-- deriveRegime of `src/lib/scoring/trend.ts`. -/
def deriveRegime (metrics : TrendMetrics) : MarketRegime :=
  if metrics.dma200 * 1.03 < metrics.price then .BULL
  else if metrics.price < metrics.dma200 * 0.97 then .BEAR
  else .NEUTRAL

/-- Fundamentals, `src/lib/types/fundamentals.ts`, restricted to the fields
the qualification core reads (the remaining fields never influence the
functions under proof). -/
structure Fundamentals where
  marketCap : Option ℚ
  returnOnEquity : Option ℚ
  netMargin : Option ℚ
  debtToEquity : Option ℚ
  currentRatio : Option ℚ
deriving DecidableEq, Repr

namespace Selector

/-- Strategy selection input, `src/lib/types/strategy.ts`; the optional
`preferDefinedRisk?: boolean` becomes `Option Bool`. -/
structure StrategySelectionInput where
  marketTrend : TrendMetrics
  stockTrend : TrendMetrics
  fundamentals : Option Fundamentals
  preferDefinedRisk : Option Bool
deriving DecidableEq, Repr

/-- Strategy selection result, `src/lib/types/strategy.ts`. -/
structure StrategySelectionResult where
  strategies : List StrategyType
  marketRegime : MarketRegime
  stockRegime : MarketRegime
  assignmentEligible : Bool
deriving DecidableEq, Repr

/-- isHoldable of `src/lib/strategy/selector.ts`. -/
def isHoldable (fundamentals : Option Fundamentals) : Bool :=
  match fundamentals with
  | none => false
  | some f =>
    if (match f.marketCap with | some m => decide (m < 5000000000) | none => false) then false
    else if (match f.debtToEquity with | some d => decide (2.5 < d) | none => false) then false
    else if (match f.currentRatio with | some c => decide (c < 1) | none => false) then false
    else true

/-- selectStrategies of `src/lib/strategy/selector.ts`; the `Set` is built
in insertion order PCS, CSP, CCS, CC, so the list below reproduces
`Array.from(strategies)` exactly. -/
def selectStrategies (input : StrategySelectionInput) : StrategySelectionResult :=
  let marketRegime := deriveRegime input.marketTrend
  let stockRegime := deriveRegime input.stockTrend
  let assignmentEligible := isHoldable input.fundamentals
  let biasDefinedRisk := input.preferDefinedRisk.getD (!assignmentEligible)
  let bullishOrNeutral := marketRegime ≠ .BEAR ∧ stockRegime ≠ .BEAR
  let neutralOrBearish := marketRegime ≠ .BULL ∨ stockRegime ≠ .BULL
  let strategies :=
    (if bullishOrNeutral then
      [StrategyType.PCS] ++ (if !biasDefinedRisk then [StrategyType.CSP] else [])
    else []) ++
    (if neutralOrBearish then
      [StrategyType.CCS] ++ (if !biasDefinedRisk then [StrategyType.CC] else [])
    else [])
  { strategies := strategies
    marketRegime := marketRegime
    stockRegime := stockRegime
    assignmentEligible := assignmentEligible }

end Selector

/-- Macro event kind, `src/lib/types/calendar.ts`. -/
inductive MacroEventType where
  | CPI
  | FOMC
deriving DecidableEq, Repr

/-- Macro event, `src/lib/types/calendar.ts`; the ISO `date` string is
modelled as the whole-day offset of the event from the evaluation instant
(the calendar provider computes exactly this offset with `diffInDays`). -/
structure MacroEvent where
  type : MacroEventType
  date : ℤ
  label : String
deriving DecidableEq, Repr

/-- Earnings info, `src/lib/types/calendar.ts`. -/
structure EarningsInfo where
  earningsDate : Option String
  daysToEarnings : Option ℚ
deriving DecidableEq, Repr

/-- Calendar snapshot, `src/lib/types/calendar.ts`. -/
structure CalendarSnapshot where
  symbol : String
  earnings : EarningsInfo
  macroEvents : List MacroEvent
deriving DecidableEq, Repr

/-- Append a flag unless already present: one `Set.add` step in insertion
order. -/
def addFlag (flags : List RiskFlag) (f : RiskFlag) : List RiskFlag :=
  if f ∈ flags then flags else flags ++ [f]

/-- First-occurrence deduplication: `new Set(flags)` read back in insertion
order by `Array.from`. -/
def dedupFlags (flags : List RiskFlag) : List RiskFlag :=
  flags.foldl addFlag []

namespace EventScoring

/-- Event score configuration, `src/lib/scoring/event.ts`. -/
structure EventScoreConfig where
  earningsPenalty : ℚ
  macroPenalty : ℚ
  macroHorizonDays : ℚ
deriving DecidableEq, Repr

/-- Event score output, `src/lib/scoring/event.ts`. -/
structure EventScoreOutput where
  scoreMultiplier : ℚ
  riskFlags : List RiskFlag
deriving DecidableEq, Repr

/-- DEFAULT_CONFIG of `src/lib/scoring/event.ts`. -/
def DEFAULT_CONFIG : EventScoreConfig where
  earningsPenalty := 0.4
  macroPenalty := 0.2
  macroHorizonDays := 14

/-- withinHorizon of `src/lib/scoring/event.ts`. -/
def withinHorizon (daysToEvent : Option ℚ) (horizon : ℚ) : Bool :=
  match daysToEvent with
  | none => false
  | some d => decide (0 ≤ d) && decide (d ≤ horizon)

/-- scoreEventRisk of `src/lib/scoring/event.ts`.  Note: the macro branch
tests only that `macroEvents` is non-empty; `macroHorizonDays` is read by
no line of the function. -/
def scoreEventRisk (baseFlags : List RiskFlag) (calendar : Option CalendarSnapshot)
    (tradeDte : Option ℚ) (config : EventScoreConfig) : EventScoreOutput :=
  let flags0 := dedupFlags baseFlags
  let earningsHit :=
    match calendar, tradeDte with
    | some cal, some dte => withinHorizon cal.earnings.daysToEarnings dte
    | _, _ => false
  let flags1 := if earningsHit then addFlag flags0 .RISK_EARNINGS_WITHIN_TRADE else flags0
  let mult1 : ℚ := if earningsHit then 1 - config.earningsPenalty else 1
  let macroHit :=
    match calendar with
    | some cal => !cal.macroEvents.isEmpty
    | none => false
  let flags2 := if macroHit then addFlag flags1 .RISK_MACRO_EVENT else flags1
  let mult2 := if macroHit then mult1 - config.macroPenalty else mult1
  { scoreMultiplier := max 0 mult2
    riskFlags := flags2 }

end EventScoring

namespace Volatility

/-- Volatility metrics, `src/lib/types/volatility.ts`. -/
inductive IvRegime where
  | EXPANDING
  | STABLE
  | CRUSHED
  | UNKNOWN
deriving DecidableEq, Repr

/-- Volatility metrics, `src/lib/types/volatility.ts`. -/
structure VolatilityMetrics where
  iv : Option ℚ
  ivChangeRate : Option ℚ
  ivRegime : IvRegime
deriving DecidableEq, Repr

/-- Volatility score configuration, `src/lib/scoring/volatility.ts`. -/
structure VolatilityScoreConfig where
  minIv : ℚ
  penalizeLowIv : Bool
  ivSpikeThreshold : ℚ
  ivCrushThreshold : ℚ
deriving DecidableEq, Repr

/-- Volatility score result, `src/lib/scoring/volatility.ts`. -/
structure VolatilityScoreResult where
  scoreMultiplier : ℚ
  riskFlags : List RiskFlag
  metrics : VolatilityMetrics
deriving DecidableEq, Repr

/-- DEFAULT_CONFIG of `src/lib/scoring/volatility.ts`. -/
def DEFAULT_CONFIG : VolatilityScoreConfig where
  minIv := 0.3
  penalizeLowIv := true
  ivSpikeThreshold := 0.2
  ivCrushThreshold := -0.15

/-- classifyRegime of `src/lib/scoring/volatility.ts`. -/
def classifyRegime (changeRate : Option ℚ) : IvRegime :=
  match changeRate with
  | none => .UNKNOWN
  | some r =>
    if 0.2 ≤ r then .EXPANDING
    else if r ≤ -0.15 then .CRUSHED
    else .STABLE

/-- scoreVolatilityQuality of `src/lib/scoring/volatility.ts`. -/
def scoreVolatilityQuality (iv : Option ℚ) (ivChangeRate : Option ℚ)
    (config : VolatilityScoreConfig) : VolatilityScoreResult :=
  let regime := classifyRegime ivChangeRate
  let m1 : ℚ :=
    match iv with
    | some v => if v < config.minIv then (if config.penalizeLowIv then 0.4 else 0.7) else 1
    | none => 1
  let spike :=
    match ivChangeRate with
    | some r => decide (config.ivSpikeThreshold ≤ r)
    | none => false
  let riskFlags : List RiskFlag := if spike then [.RISK_IV_SPIKE] else []
  let m2 := if spike then m1 * 0.7 else m1
  let crush :=
    match ivChangeRate with
    | some r => decide (r ≤ config.ivCrushThreshold)
    | none => false
  let m3 := if crush then m2 * 0.6 else m2
  { scoreMultiplier := m3
    riskFlags := riskFlags
    metrics := { iv := iv, ivChangeRate := ivChangeRate, ivRegime := regime } }

end Volatility

namespace Ranker

/-- Expiration candidate, `src/lib/types/expiry.ts`. -/
structure ExpirationCandidate where
  expiration : String
  dte : ℚ
  thetaPerDay : ℚ
  credit : ℚ
  maxLoss : ℚ
  riskFlags : List RiskFlag
  strategy : StrategyType
deriving DecidableEq, Repr

/-- Expiration candidate with its derived score, `src/lib/types/expiry.ts`. -/
structure ExpirationRanked extends ExpirationCandidate where
  score : ℚ
deriving DecidableEq, Repr

/-- Expiration ranking configuration, `src/lib/types/expiry.ts`; `topN`
feeds `slice(0, topN)` and is modelled as a natural number. -/
structure ExpirationRankingConfig where
  minDte : ℚ
  maxDte : ℚ
  softMinDte : ℚ
  softMaxDte : ℚ
  eventPenalty : ℚ
  topN : ℕ
deriving DecidableEq, Repr

/-- DEFAULT_CONFIG of `src/lib/expiry/ranker.ts`. -/
def DEFAULT_CONFIG : ExpirationRankingConfig where
  minDte := 30
  maxDte := 60
  softMinDte := 25
  softMaxDte := 70
  eventPenalty := 0.15
  topN := 3

/-- clamp of `src/lib/expiry/ranker.ts`. -/
def clamp (value lo hi : ℚ) : ℚ := max lo (min hi value)

/-- dteScore of `src/lib/expiry/ranker.ts`. -/
def dteScore (dte : ℚ) (config : ExpirationRankingConfig) : ℚ :=
  if config.minDte ≤ dte ∧ dte ≤ config.maxDte then 1
  else if config.softMinDte ≤ dte ∧ dte ≤ config.softMaxDte then 0.6
  else 0.2

/-- efficiencyScore of `src/lib/expiry/ranker.ts`. -/
def efficiencyScore (thetaPerDay credit maxLoss : ℚ) : ℚ :=
  let creditPerRisk := if 0 < maxLoss then credit / maxLoss else 0
  let thetaFactor := clamp (thetaPerDay / 1) 0 1
  let creditFactor := clamp (creditPerRisk / 0.5) 0 1
  0.5 * thetaFactor + 0.5 * creditFactor

/-- The map step of rankExpirations: a candidate with its composite score. -/
def withScore (cfg : ExpirationRankingConfig) (candidate : ExpirationCandidate) :
    ExpirationRanked :=
  let base := dteScore candidate.dte cfg
  let efficiency := efficiencyScore candidate.thetaPerDay candidate.credit candidate.maxLoss
  let penalty := if candidate.riskFlags.isEmpty then 0 else cfg.eventPenalty
  { toExpirationCandidate := candidate
    score := clamp (base * 0.6 + efficiency * 0.4 - penalty) 0 1 }

/-- The JavaScript stable sort `ranked.sort((a, b) => b.score - a.score)`:
a stable merge sort under the "score not below" relation. -/
def sortByScoreDesc (ranked : List ExpirationRanked) : List ExpirationRanked :=
  ranked.mergeSort fun a b => decide (b.score ≤ a.score)

/-- rankExpirations of `src/lib/expiry/ranker.ts` (`cfg` is the merged
configuration). -/
def rankExpirations (candidates : List ExpirationCandidate)
    (cfg : ExpirationRankingConfig) : List ExpirationRanked :=
  let ranked := candidates.map (withScore cfg)
  (sortByScoreDesc ranked).take cfg.topN

end Ranker

namespace LiquidityGate

/-- Liquidity disqualification codes, `src/lib/types/liquidity.ts`
(messages are display-only). -/
inductive LiquidityDisqualificationCode where
  | DISQUALIFIED_LOW_STOCK_LIQUIDITY
  | DISQUALIFIED_WIDE_OPTIONS_SPREAD
  | DISQUALIFIED_LOW_OPEN_INTEREST
deriving DecidableEq, Repr

/-- Gate diagnostics, `src/lib/types/liquidity.ts`. -/
structure LiquidityDiagnostics where
  avgDailyVolume : Option ℚ
  evaluatedStrike : Option ℚ
  evaluatedSpreadPct : Option ℚ
  evaluatedOpenInterest : Option ℚ
deriving DecidableEq, Repr

/-- Liquidity gate result, `src/lib/types/liquidity.ts`. -/
structure LiquidityGateResult where
  passed : Bool
  reasons : List LiquidityDisqualificationCode
  diagnostics : LiquidityDiagnostics
deriving DecidableEq, Repr

/-- Liquidity gate configuration, `src/lib/liquidity/gate.ts`. -/
structure LiquidityGateConfig where
  minAvgDailyVolume : ℚ
  maxSpreadPct : ℚ
  minOpenInterest : ℚ
deriving DecidableEq, Repr

/-- Liquidity gate input, `src/lib/liquidity/gate.ts`; `config` is the
merged configuration. -/
structure LiquidityGateInput where
  avgDailyVolume : Option ℚ
  shortStrike : Option ℚ
  contracts : List OptionContract
  config : LiquidityGateConfig

/-- DEFAULT_CONFIG of `src/lib/liquidity/gate.ts`. -/
def DEFAULT_CONFIG : LiquidityGateConfig where
  minAvgDailyVolume := 1000000
  maxSpreadPct := 0.05
  minOpenInterest := 500

/-- calculateSpreadPct of `src/lib/liquidity/gate.ts`. -/
def calculateSpreadPct (contract : OptionContract) : Option ℚ :=
  let mid := (contract.bid + contract.ask) / 2
  if mid ≤ 0 then none else some ((contract.ask - contract.bid) / mid)

/-- findNearestContract of `src/lib/liquidity/gate.ts`: highest open
interest when no target strike, else closest strike (both `reduce`s keep
the earlier contract on ties). -/
def findNearestContract (contracts : List OptionContract) (targetStrike : Option ℚ) :
    Option OptionContract :=
  match contracts with
  | [] => none
  | h :: t =>
    match targetStrike with
    | none => some (t.foldl (fun best c => if best.openInterest < c.openInterest then c else best) h)
    | some target =>
      some (t.foldl (fun best c => if |c.strike - target| < |best.strike - target| then c else best) h)

/-- evaluateLiquidityGate of `src/lib/liquidity/gate.ts`. -/
def evaluateLiquidityGate (input : LiquidityGateInput) : LiquidityGateResult :=
  let config := input.config
  let volumeReasons :=
    match input.avgDailyVolume with
    | some v =>
      if v < config.minAvgDailyVolume
      then [LiquidityDisqualificationCode.DISQUALIFIED_LOW_STOCK_LIQUIDITY] else []
    | none => []
  let contract := findNearestContract input.contracts input.shortStrike
  let spreadPct := match contract with | some c => calculateSpreadPct c | none => none
  let openInterest := match contract with | some c => some c.openInterest | none => none
  let spreadReasons :=
    match spreadPct with
    | some s =>
      if config.maxSpreadPct < s
      then [LiquidityDisqualificationCode.DISQUALIFIED_WIDE_OPTIONS_SPREAD] else []
    | none => []
  let oiReasons :=
    match openInterest with
    | some oi =>
      if oi < config.minOpenInterest
      then [LiquidityDisqualificationCode.DISQUALIFIED_LOW_OPEN_INTEREST] else []
    | none => []
  let reasons := volumeReasons ++ spreadReasons ++ oiReasons
  { passed := reasons.isEmpty
    reasons := reasons
    diagnostics :=
      { avgDailyVolume := input.avgDailyVolume
        evaluatedStrike := contract.map (·.strike)
        evaluatedSpreadPct := spreadPct
        evaluatedOpenInterest := openInterest } }

end LiquidityGate

/-- Score breakdown, `src/lib/types/scoring.ts`; the breakdown holds the
`Math.round`ed integer sub-scores. -/
structure ScoreBreakdown where
  fundamentals : ℤ
  liquidity : ℤ
  volatility : ℤ
  trend : ℤ
  eventRisk : ℤ
  total : ℤ
deriving DecidableEq, Repr

namespace Scoring

/-- Score input, `src/lib/scoring/score.ts`. -/
structure ScoreInput where
  fundamentals : Option Fundamentals
  liquidityGate : Option LiquidityGate.LiquidityGateResult
  impliedVol : Option ℚ
  ivChangeRate : Option ℚ
  trendScore : Option ℚ
  eventRiskFlags : List RiskFlag

/-- Score weights, `src/lib/scoring/score.ts`. -/
structure ScoreConfig where
  fundamentalsWeight : ℚ
  liquidityWeight : ℚ
  volatilityWeight : ℚ
  technicalWeight : ℚ
  eventWeight : ℚ
deriving DecidableEq, Repr

/-- Score interpretation tiers, `src/lib/scoring/score.ts`. -/
inductive Interpretation where
  | HIGH
  | ACCEPTABLE
  | PASS
deriving DecidableEq, Repr

/-- Score result, `src/lib/scoring/score.ts`. -/
structure ScoreResult where
  total : ℤ
  breakdown : ScoreBreakdown
  riskFlags : List RiskFlag
  interpretation : Interpretation
deriving DecidableEq, Repr

/-- DEFAULT_SCORE_CONFIG of `src/lib/scoring/score.ts`. -/
def DEFAULT_SCORE_CONFIG : ScoreConfig where
  fundamentalsWeight := 30
  liquidityWeight := 20
  volatilityWeight := 20
  technicalWeight := 20
  eventWeight := 10

/-- clamp of `src/lib/scoring/score.ts`. -/
def clamp (value lo hi : ℚ) : ℚ := max lo (min hi value)

/-- scoreFundamentals of `src/lib/scoring/score.ts`; the `x && x > 0`
truthiness guards collapse to the shown conditions because 0 fails both. -/
def scoreFundamentals (fundamentals : Option Fundamentals) (weight : ℚ) : ℚ :=
  match fundamentals with
  | none => 0
  | some f =>
    let b1 : Bool := match f.marketCap with
      | some m => decide (m ≠ 0) && decide (10000000000 ≤ m)
      | none => false
    let b2 : Bool := match f.returnOnEquity with
      | some r => decide (r ≠ 0) && decide (0 < r)
      | none => false
    let b3 : Bool := match f.netMargin with
      | some n => decide (n ≠ 0) && decide (0 < n)
      | none => false
    let b4 : Bool := match f.debtToEquity with
      | some d => decide (d < 2)
      | none => false
    let b5 : Bool := match f.currentRatio with
      | some c => decide (1 < c)
      | none => false
    let s1 : ℚ := if b1 then 0.3 else 0
    let s2 : ℚ := if b2 then 0.2 else 0
    let s3 : ℚ := if b3 then 0.2 else 0
    let s4 : ℚ := if b4 then 0.2 else 0
    let s5 : ℚ := if b5 then 0.1 else 0
    clamp ((s1 + s2 + s3 + s4 + s5) * weight) 0 weight

/-- scoreLiquidity of `src/lib/scoring/score.ts`. -/
def scoreLiquidity (liquidityGate : Option LiquidityGate.LiquidityGateResult)
    (weight : ℚ) : ℚ :=
  match liquidityGate with
  | none => weight * 0.5
  | some gate => if gate.passed then weight else weight * 0.2

/-- scoreTechnical of `src/lib/scoring/score.ts`. -/
def scoreTechnical (trendScore : Option ℚ) (weight : ℚ) : ℚ :=
  match trendScore with
  | none => weight * 0.5
  | some t => clamp t 0 1 * weight

/-- scoreEventRisk of `src/lib/scoring/score.ts` (the sub-score, distinct
from `EventScoring.scoreEventRisk`). -/
def scoreEventRiskComponent (riskFlags : List RiskFlag) (weight : ℚ) : ℚ :=
  if riskFlags.isEmpty then weight
  else clamp (weight - riskFlags.length * 2) 0 weight

/-- interpretScore of `src/lib/scoring/score.ts`. -/
def interpretScore (total : ℤ) : Interpretation :=
  if 80 ≤ total then .HIGH
  else if 65 ≤ total then .ACCEPTABLE
  else .PASS

/-- scoreCandidate of `src/lib/scoring/score.ts`; `round` is Mathlib's
`⌊x + 1/2⌋`, which agrees with JavaScript `Math.round`. -/
def scoreCandidate (input : ScoreInput) (config : ScoreConfig) : ScoreResult :=
  let fundamentalsScore := scoreFundamentals input.fundamentals config.fundamentalsWeight
  let liquidityScore := scoreLiquidity input.liquidityGate config.liquidityWeight
  let volatilityQuality :=
    Volatility.scoreVolatilityQuality input.impliedVol input.ivChangeRate
      Volatility.DEFAULT_CONFIG
  let volatilityScore :=
    clamp (config.volatilityWeight * volatilityQuality.scoreMultiplier) 0
      config.volatilityWeight
  let technicalScore := scoreTechnical input.trendScore config.technicalWeight
  let eventScore := scoreEventRiskComponent input.eventRiskFlags config.eventWeight
  let riskFlags := dedupFlags (input.eventRiskFlags ++ volatilityQuality.riskFlags)
  let total :=
    clamp (fundamentalsScore + liquidityScore + volatilityScore + technicalScore + eventScore)
      0 100
  let breakdown : ScoreBreakdown :=
    { fundamentals := round fundamentalsScore
      liquidity := round liquidityScore
      volatility := round volatilityScore
      trend := round technicalScore
      eventRisk := round eventScore
      total := round total }
  { total := breakdown.total
    breakdown := breakdown
    riskFlags := riskFlags
    interpretation := interpretScore breakdown.total }

end Scoring

namespace Explain

/-- A TypeScript `T | null | undefined` value, needed where `undefined` and
`null` are observably different (`!== null` checks). -/
inductive JsOpt (α : Type) where
  | undef
  | null
  | val (a : α)
deriving DecidableEq, Repr

/-- Explanation input, `src/lib/types/explain.ts`.  Fields where `null` and
`undefined` behave identically inside `buildExplanation` are collapsed to
`Option`; `tradeDte` keeps all three states because
`input.tradeDte !== null` distinguishes them. -/
structure ExplanationInput where
  ticker : String
  underlyingPrice : Option ℚ
  score : Option ScoreBreakdown
  volatility : Option Volatility.VolatilityMetrics
  strike : Option StrikeFinder.StrikeCandidate
  liquidity : Option LiquidityGate.LiquidityGateResult
  fundamentals : Option Fundamentals
  trend : Option TrendMetrics
  calendar : Option CalendarSnapshot
  tradeDte : JsOpt ℚ
  riskFlags : Option (List RiskFlag)

/-- One `why` bullet of `buildWhyBullets`; the interpolated sentence text
is display-only, so each push site becomes one constructor. -/
inductive Bullet where
  | ivLevel
  | shortStrikeDelta
  | shortStrikeOtm
  | dteTarget
  | avgVolume
  | marketCapLevel
  | dma200Distance
  | noEarningsWithinHorizon
  | earningsInDays
  | noUpcomingEarnings
  | scoreSummary
  | baselineFilters
deriving DecidableEq, Repr

/-- Explanation result, `src/lib/types/explain.ts`. -/
structure ExplanationResult where
  why : List Bullet
  riskFlags : List RiskFlag
deriving DecidableEq, Repr

/-- buildWhyBullets of `src/lib/explain/builder.ts`.  `none` models the
TypeError thrown when `volatility`, `liquidity`, `fundamentals` or
`calendar` is null/undefined: each is guarded by `x?.field !== null`,
which is TRUE for a missing `x` (`undefined !== null`), so the branch body
then dereferences the missing object.  All other sites are truthiness
checks that skip safely. -/
def buildWhyBullets (input : ExplanationInput) : Option (List Bullet) := do
  let v ← input.volatility
  let seg1 := match v.iv with
    | some _ => [Bullet.ivLevel]
    | none => []
  let seg2 := match input.strike with
    | some _ =>
      [Bullet.shortStrikeDelta] ++
        (match input.underlyingPrice with
          | some p => if 0 < p then [Bullet.shortStrikeOtm] else []
          | none => [])
    | none => []
  let seg3 := match input.tradeDte with
    | .null => []
    | .undef => [Bullet.dteTarget]
    | .val _ => [Bullet.dteTarget]
  let lg ← input.liquidity
  let seg4 := match lg.diagnostics.avgDailyVolume with
    | some _ => [Bullet.avgVolume]
    | none => []
  let f ← input.fundamentals
  let seg5 := match f.marketCap with
    | some _ => [Bullet.marketCapLevel]
    | none => []
  let seg6 := match input.trend with
    | some _ => [Bullet.dma200Distance]
    | none => []
  let cal ← input.calendar
  let seg7 := match cal.earnings.daysToEarnings with
    | some days =>
      let horizon := match input.tradeDte with
        | .val d => d
        | _ => 21
      if horizon < days then [Bullet.noEarningsWithinHorizon] else [Bullet.earningsInDays]
    | none => [Bullet.noUpcomingEarnings]
  return seg1 ++ seg2 ++ seg3 ++ seg4 ++ seg5 ++ seg6 ++ seg7

/-- buildExplanation of `src/lib/explain/builder.ts`.  The `filter(Boolean)`
on the bullets is the identity (no pushed sentence is empty).  The
earnings-flag branch with a missing calendar would throw in JavaScript,
but it is unreachable: `buildWhyBullets` has already thrown then. -/
def buildExplanation (input : ExplanationInput) : Option ExplanationResult := do
  let rawBullets ← buildWhyBullets input
  let flags0 := dedupFlags (input.riskFlags.getD [])
  let flags1 := match input.calendar with
    | some cal => if cal.macroEvents.isEmpty then flags0 else addFlag flags0 .RISK_MACRO_EVENT
    | none => flags0
  let flags2 :=
    match input.calendar, input.tradeDte with
    | some cal, .val d =>
      match cal.earnings.daysToEarnings with
      | some days => if days ≤ d then addFlag flags1 .RISK_EARNINGS_WITHIN_TRADE else flags1
      | none => flags1
    | _, _ => flags1
  let limited := rawBullets.take 6
  let filled1 :=
    if limited.length < 3 then
      match input.score with
      | some _ => limited ++ [Bullet.scoreSummary]
      | none => limited
    else limited
  let filled2 :=
    if filled1.length < 3 then filled1 ++ [Bullet.baselineFilters] else filled1
  return { why := filled2.take 6, riskFlags := flags2 }

end Explain

/-
Concrete inputs used by scenario conjuncts, witnesses and counterexamples.
-/

/-- A liquid cash-secured-put contract: 9.375% OTM at underlying 160,
delta −0.23, tight spread, ample open interest and volume. -/
def exCspContract : OptionContract where
  symbol := "A"
  underlying := "XYZ"
  side := .put
  expiration := "2026-02-20"
  strike := 145
  bid := 0.5
  ask := 0.55
  last := none
  openInterest := 300
  volume := 30
  impliedVol := 0.3
  delta := some (-0.23)
  theta := some (-0.05)

/-- Chain holding only `exCspContract`. -/
def exCspChain : OptionChainSnapshot where
  underlying := "XYZ"
  asOf := "t"
  contracts := [exCspContract]

/-- First contract of the spec's PCS tie-break scenario:
strike 145, delta −0.19, bid 0.20. -/
def exPcsContractA : OptionContract where
  symbol := "A"
  underlying := "XYZ"
  side := .put
  expiration := "2026-02-20"
  strike := 145
  bid := 0.2
  ask := 0.25
  last := none
  openInterest := 300
  volume := 30
  impliedVol := 0.3
  delta := some (-0.19)
  theta := some (-0.05)

/-- Second contract of the scenario: strike 140, delta −0.21, bid 0.40. -/
def exPcsContractB : OptionContract where
  symbol := "B"
  underlying := "XYZ"
  side := .put
  expiration := "2026-02-20"
  strike := 140
  bid := 0.4
  ask := 0.25
  last := none
  openInterest := 300
  volume := 30
  impliedVol := 0.3
  delta := some (-0.21)
  theta := some (-0.05)

/-- Chain of the PCS scenario, in the order the repository's test lists
the contracts. -/
def exPcsChain : OptionChainSnapshot where
  underlying := "XYZ"
  asOf := "t"
  contracts := [exPcsContractA, exPcsContractB]

/-- Default strike configuration with the PCS delta band widened to the
claim's [0.18, 0.25]. -/
def exPcsConfig : StrikeFinder.StrikeFinderConfig :=
  { StrikeFinder.DEFAULT_CONFIG with pcsDeltaMax := 0.25 }

/-- Fundamentals earning exactly the large-cap and positive-ROE credits
(raw fundamentals score 0.5 × 30 = 15). -/
def exScoreFundamentals : Fundamentals where
  marketCap := some 10000000000
  returnOnEquity := some 0.2
  netMargin := some (-1)
  debtToEquity := some 3
  currentRatio := some 0.5

/-- Score input whose raw component scores are 15, 10, 5.6, 10.5 and 8:
their rounded sum is 50 while the rounded raw total is 49. -/
def exScoreInput : Scoring.ScoreInput where
  fundamentals := some exScoreFundamentals
  liquidityGate := none
  impliedVol := some 0.2
  ivChangeRate := some 0.25
  trendScore := some 0.525
  eventRiskFlags := [.RISK_TREND_CONFLICT]

/-- Trend metrics deriving a BEAR regime (price 90 below 97% of the
200-day average 100). -/
def exBearTrend : TrendMetrics where
  price := 90
  dma50 := 0
  dma100 := 0
  dma200 := 100
  distanceFrom200DmaPct := 0

/-- Trend metrics deriving a BULL regime (price 110 above 103% of the
200-day average 100). -/
def exBullTrend : TrendMetrics where
  price := 110
  dma50 := 0
  dma100 := 0
  dma200 := 100
  distanceFrom200DmaPct := 0

/-- Selection input with a BEAR market and a BULL stock: the regimes are
not both BEAR, yet the code's conjunctive test excludes PCS. -/
def exSelectionInput : Selector.StrategySelectionInput where
  marketTrend := exBearTrend
  stockTrend := exBullTrend
  fundamentals := none
  preferDefinedRisk := none

/-- Calendar whose only macro event lies 30 days out, well beyond the
14-day macro horizon. -/
def exMacroCalendar : CalendarSnapshot where
  symbol := "XYZ"
  earnings := { earningsDate := none, daysToEarnings := none }
  macroEvents := [{ type := .CPI, date := 30, label := "CPI" }]

/-- Liquidity-gate input of the spec's scenario: average daily volume
500,000 against the default 1,000,000 threshold, no contracts. -/
def exGateInput : LiquidityGate.LiquidityGateInput where
  avgDailyVolume := some 500000
  shortStrike := none
  contracts := []
  config := LiquidityGate.DEFAULT_CONFIG

/-- Explanation input producing exactly one organic bullet (the
no-upcoming-earnings sentence) while carrying a score. -/
def exExplainInput : Explain.ExplanationInput where
  ticker := "XYZ"
  underlyingPrice := none
  score := some { fundamentals := 10, liquidity := 10, volatility := 10, trend := 10, eventRisk := 5, total := 45 }
  volatility := some { iv := none, ivChangeRate := none, ivRegime := .UNKNOWN }
  strike := none
  liquidity := some
    { passed := true
      reasons := []
      diagnostics :=
        { avgDailyVolume := none, evaluatedStrike := none
          evaluatedSpreadPct := none, evaluatedOpenInterest := none } }
  fundamentals := some
    { marketCap := none, returnOnEquity := none, netMargin := none
      debtToEquity := none, currentRatio := none }
  trend := none
  calendar := some { symbol := "XYZ", earnings := { earningsDate := none, daysToEarnings := none }, macroEvents := [] }
  tradeDte := .null
  riskFlags := none

/-- The explanation built from `exExplainInput`: one organic bullet padded
with the score summary and the baseline sentence. -/
def exExplainResult : Explain.ExplanationResult where
  why := [.noUpcomingEarnings, .scoreSummary, .baselineFilters]
  riskFlags := []

/-
Theorems.
-/

/-- An integer window around a rational transfers to its rounding. -/
theorem round_int_bounds (x : ℚ) (lo hi : ℤ) (h1 : (lo : ℚ) ≤ x) (h2 : x ≤ (hi : ℚ)) :
    lo ≤ round x ∧ round x ≤ hi := by
  rw [round_eq]
  constructor
  · exact Int.le_floor.mpr (by push_cast; linarith)
  · have h3 : ⌊x + 1 / 2⌋ < hi + 1 := Int.floor_lt.mpr (by push_cast; linarith)
    omega

/-- Bounds of the scoring clamp. -/
theorem Scoring.clamp_bounds (v lo hi : ℚ) (h : lo ≤ hi) :
    lo ≤ Scoring.clamp v lo hi ∧ Scoring.clamp v lo hi ≤ hi :=
  ⟨le_max_left _ _, max_le h (min_le_left _ _)⟩

/-- Membership through one set-insertion step. -/
theorem mem_addFlag (flags : List RiskFlag) (f g : RiskFlag) :
    g ∈ addFlag flags f ↔ g ∈ flags ∨ g = f := by
  by_cases h : f ∈ flags
  · simp only [addFlag, if_pos h]
    constructor
    · exact Or.inl
    · rintro (hg | rfl)
      · exact hg
      · exact h
  · simp [addFlag, if_neg h]

/-- Folding set insertions preserves membership. -/
theorem mem_foldl_addFlag (l : List RiskFlag) :
    ∀ (acc : List RiskFlag) (g : RiskFlag),
      g ∈ l.foldl addFlag acc ↔ g ∈ acc ∨ g ∈ l := by
  induction l with
  | nil => simp
  | cons x xs ih =>
    intro acc g
    simp only [List.foldl_cons, ih, mem_addFlag, List.mem_cons]
    tauto

/-- Deduplication preserves membership. -/
theorem mem_dedupFlags (l : List RiskFlag) (g : RiskFlag) :
    g ∈ dedupFlags l ↔ g ∈ l := by
  unfold dedupFlags
  simp [mem_foldl_addFlag]

/-- C2: for every StrikeCandidate built by buildCandidate from a resolved
short contract (and an optional long contract), the credit equals
max(shortBid − longAsk, 0) with a long leg and exactly shortBid without
one, the max loss is non-negative, and the breakeven is the short strike
minus the credit on the put side and plus the credit on the call side. -/
theorem buildCandidate_credit_maxLoss_breakeven :
    ∀ (strategy : StrategyType) (short : OptionContract)
      (long : Option OptionContract) (reasons : List StrikeFinder.StrikeFinderReasonCode),
      ((StrikeFinder.buildCandidate strategy short long reasons).credit =
        match long with
        | some l => max (short.bid - l.ask) 0
        | none => short.bid)
      ∧ 0 ≤ (StrikeFinder.buildCandidate strategy short long reasons).maxLoss
      ∧ ((StrikeFinder.buildCandidate strategy short long reasons).breakeven =
        match short.side with
        | .put => short.strike - (StrikeFinder.buildCandidate strategy short long reasons).credit
        | .call => short.strike + (StrikeFinder.buildCandidate strategy short long reasons).credit) := by
  intro strategy short long reasons
  refine ⟨?_, ?_, ?_⟩
  · cases long <;> rfl
  · cases long <;> exact le_max_right _ _
  · cases long <;> cases h : short.side <;>
      simp [StrikeFinder.buildCandidate, h]

/-- C8: the liquidity gate passes exactly when it records no reason, and
the stock-volume, spread and open-interest disqualifications accumulate
independently; in the spec's scenario (average daily volume 500,000
against the default 1,000,000 floor, no contracts) the reasons are
exactly the low-stock-liquidity code. -/
theorem evaluateLiquidityGate_independent_reasons :
    (∀ input : LiquidityGate.LiquidityGateInput,
      ((LiquidityGate.evaluateLiquidityGate input).passed = true ↔
        (LiquidityGate.evaluateLiquidityGate input).reasons = [])
      ∧ (LiquidityGate.LiquidityDisqualificationCode.DISQUALIFIED_LOW_STOCK_LIQUIDITY ∈
          (LiquidityGate.evaluateLiquidityGate input).reasons ↔
          ∃ v, input.avgDailyVolume = some v ∧ v < input.config.minAvgDailyVolume)
      ∧ (LiquidityGate.LiquidityDisqualificationCode.DISQUALIFIED_WIDE_OPTIONS_SPREAD ∈
          (LiquidityGate.evaluateLiquidityGate input).reasons ↔
          ∃ s, (LiquidityGate.evaluateLiquidityGate input).diagnostics.evaluatedSpreadPct = some s ∧
            input.config.maxSpreadPct < s)
      ∧ (LiquidityGate.LiquidityDisqualificationCode.DISQUALIFIED_LOW_OPEN_INTEREST ∈
          (LiquidityGate.evaluateLiquidityGate input).reasons ↔
          ∃ oi, (LiquidityGate.evaluateLiquidityGate input).diagnostics.evaluatedOpenInterest = some oi ∧
            oi < input.config.minOpenInterest))
    ∧ (LiquidityGate.evaluateLiquidityGate exGateInput).reasons =
        [.DISQUALIFIED_LOW_STOCK_LIQUIDITY] := by
  constructor
  · intro input
    simp only [LiquidityGate.evaluateLiquidityGate]
    refine ⟨?_, ?_, ?_, ?_⟩
    · simp [List.isEmpty_iff]
    · cases h : input.avgDailyVolume <;>
        simp [h, List.mem_append] <;>
        split <;>
        simp_all <;>
        split <;>
        simp_all <;>
        split <;>
        simp_all
    · cases h1 : LiquidityGate.findNearestContract input.contracts input.shortStrike <;>
        simp only [h1] <;>
        [skip; cases h2 : LiquidityGate.calculateSpreadPct _] <;>
        simp_all [List.mem_append] <;>
        split <;>
        simp_all <;>
        split <;>
        simp_all <;>
        split <;>
        simp_all
    · cases h1 : LiquidityGate.findNearestContract input.contracts input.shortStrike <;>
        simp_all [List.mem_append] <;>
        split <;>
        simp_all <;>
        split <;>
        simp_all <;>
        split <;>
        simp_all
  · decide

/-- C7: rankExpirations returns at most topN items (default 3), sorted by
score in descending order, and every returned item is an input candidate
with its score attached. -/
theorem rankExpirations_topN_sorted_subset :
    (∀ (candidates : List Ranker.ExpirationCandidate) (cfg : Ranker.ExpirationRankingConfig),
      (Ranker.rankExpirations candidates cfg).length ≤ cfg.topN
      ∧ List.Pairwise (fun a b => b.score ≤ a.score) (Ranker.rankExpirations candidates cfg)
      ∧ ∀ r ∈ Ranker.rankExpirations candidates cfg,
          ∃ c ∈ candidates, r = Ranker.withScore cfg c)
    ∧ Ranker.DEFAULT_CONFIG.topN = 3 := by
  constructor
  · intro candidates cfg
    refine ⟨?_, ?_, ?_⟩
    · simp only [Ranker.rankExpirations, List.length_take]
      exact inf_le_left
    · have htrans : ∀ a b c : Ranker.ExpirationRanked,
          (decide (b.score ≤ a.score)) = true → (decide (c.score ≤ b.score)) = true →
          (decide (c.score ≤ a.score)) = true := by
        intro a b c hab hbc
        simp only [decide_eq_true_eq] at *
        linarith
      have htotal : ∀ a b : Ranker.ExpirationRanked,
          ((decide (b.score ≤ a.score)) || (decide (a.score ≤ b.score))) = true := by
        intro a b
        simp [decide_eq_true_eq]
        exact le_total b.score a.score
      have hs := @List.sorted_mergeSort (Ranker.ExpirationRanked)
        (fun a b => decide (b.score ≤ a.score)) htrans htotal
        (candidates.map (Ranker.withScore cfg))
      have hs2 : List.Pairwise (fun a b : Ranker.ExpirationRanked => b.score ≤ a.score)
          (Ranker.sortByScoreDesc (candidates.map (Ranker.withScore cfg))) :=
        hs.imp fun h => of_decide_eq_true h
      exact hs2.sublist (List.take_sublist _ _)
    · intro r hr
      have h1 : r ∈ Ranker.sortByScoreDesc (candidates.map (Ranker.withScore cfg)) :=
        List.mem_of_mem_take hr
      have h2 : r ∈ candidates.map (Ranker.withScore cfg) := List.mem_mergeSort.mp h1
      obtain ⟨c, hc, hceq⟩ := List.mem_map.mp h2
      exact ⟨c, hc, hceq.symm⟩
  · rfl

/-- C4 counterexample: for `exScoreInput` the raw component scores are
15, 10, 5.6, 10.5 and 8, whose individually rounded values sum to 50,
while the code rounds the raw total 49.1 to 49: the breakdown's total is
not the sum of the breakdown's rounded sub-scores. -/
theorem scoreCandidate_total_not_sum_of_rounds :
    (Scoring.scoreCandidate exScoreInput Scoring.DEFAULT_SCORE_CONFIG).breakdown.fundamentals
        + (Scoring.scoreCandidate exScoreInput Scoring.DEFAULT_SCORE_CONFIG).breakdown.liquidity
        + (Scoring.scoreCandidate exScoreInput Scoring.DEFAULT_SCORE_CONFIG).breakdown.volatility
        + (Scoring.scoreCandidate exScoreInput Scoring.DEFAULT_SCORE_CONFIG).breakdown.trend
        + (Scoring.scoreCandidate exScoreInput Scoring.DEFAULT_SCORE_CONFIG).breakdown.eventRisk = 50
    ∧ (Scoring.scoreCandidate exScoreInput Scoring.DEFAULT_SCORE_CONFIG).breakdown.total = 49 := by
  have h1 : Scoring.scoreFundamentals exScoreInput.fundamentals 30 = 15 := by
    norm_num [Scoring.scoreFundamentals, exScoreInput, exScoreFundamentals, Scoring.clamp]
  have h2 : Scoring.scoreLiquidity exScoreInput.liquidityGate 20 = 10 := by
    norm_num [Scoring.scoreLiquidity, exScoreInput]
  have h3 : (Volatility.scoreVolatilityQuality exScoreInput.impliedVol exScoreInput.ivChangeRate
      Volatility.DEFAULT_CONFIG).scoreMultiplier = 0.28 := by
    norm_num [Volatility.scoreVolatilityQuality, Volatility.DEFAULT_CONFIG, exScoreInput]
  have h4 : Scoring.scoreTechnical exScoreInput.trendScore 20 = 10.5 := by
    norm_num [Scoring.scoreTechnical, exScoreInput, Scoring.clamp]
  have h5 : Scoring.scoreEventRiskComponent exScoreInput.eventRiskFlags 10 = 8 := by
    norm_num [Scoring.scoreEventRiskComponent, exScoreInput, Scoring.clamp]
  simp only [Scoring.scoreCandidate, Scoring.DEFAULT_SCORE_CONFIG, h1, h2, h3, h4, h5]
  norm_num [Scoring.clamp, round_eq]

/-- Bounds of the raw fundamentals component at weight 30. -/
theorem scoreFundamentals_bounds (f : Option Fundamentals) :
    0 ≤ Scoring.scoreFundamentals f 30 ∧ Scoring.scoreFundamentals f 30 ≤ 30 := by
  cases f with
  | none => norm_num [Scoring.scoreFundamentals]
  | some f =>
    simp only [Scoring.scoreFundamentals]
    exact Scoring.clamp_bounds _ 0 30 (by norm_num)

/-- Bounds of the raw liquidity component at weight 20. -/
theorem scoreLiquidity_bounds (g : Option LiquidityGate.LiquidityGateResult) :
    0 ≤ Scoring.scoreLiquidity g 20 ∧ Scoring.scoreLiquidity g 20 ≤ 20 := by
  cases g with
  | none => norm_num [Scoring.scoreLiquidity]
  | some gate =>
    cases h : gate.passed <;> simp [Scoring.scoreLiquidity, h] <;> norm_num

/-- Bounds of the raw trend component at weight 20. -/
theorem scoreTechnical_bounds (t : Option ℚ) :
    0 ≤ Scoring.scoreTechnical t 20 ∧ Scoring.scoreTechnical t 20 ≤ 20 := by
  cases t with
  | none => norm_num [Scoring.scoreTechnical]
  | some v =>
    simp only [Scoring.scoreTechnical]
    have h := Scoring.clamp_bounds v 0 1 (by norm_num)
    constructor <;> nlinarith [h.1, h.2]

/-- Bounds of the raw event-risk component at weight 10. -/
theorem scoreEventRiskComponent_bounds (flags : List RiskFlag) :
    0 ≤ Scoring.scoreEventRiskComponent flags 10
    ∧ Scoring.scoreEventRiskComponent flags 10 ≤ 10 := by
  unfold Scoring.scoreEventRiskComponent
  split
  · norm_num
  · exact Scoring.clamp_bounds _ 0 10 (by norm_num)

/-- C4 as amended: with the default weights the breakdown's total is the
rounding of the clamped sum of the five raw component scores (not the
sum of the rounded sub-scores), each rounded sub-score respects its
component ceiling 30/20/20/20/10, the total lies in [0, 100], and the
result's headline total equals the breakdown's total. -/
theorem scoreCandidate_breakdown_bounds :
    ∀ input : Scoring.ScoreInput,
      (Scoring.scoreCandidate input Scoring.DEFAULT_SCORE_CONFIG).breakdown.total =
        round (Scoring.clamp
          (Scoring.scoreFundamentals input.fundamentals 30
            + Scoring.scoreLiquidity input.liquidityGate 20
            + Scoring.clamp (20 * (Volatility.scoreVolatilityQuality input.impliedVol
                input.ivChangeRate Volatility.DEFAULT_CONFIG).scoreMultiplier) 0 20
            + Scoring.scoreTechnical input.trendScore 20
            + Scoring.scoreEventRiskComponent input.eventRiskFlags 10) 0 100)
      ∧ (0 ≤ (Scoring.scoreCandidate input Scoring.DEFAULT_SCORE_CONFIG).breakdown.total
          ∧ (Scoring.scoreCandidate input Scoring.DEFAULT_SCORE_CONFIG).breakdown.total ≤ 100)
      ∧ (0 ≤ (Scoring.scoreCandidate input Scoring.DEFAULT_SCORE_CONFIG).breakdown.fundamentals
          ∧ (Scoring.scoreCandidate input Scoring.DEFAULT_SCORE_CONFIG).breakdown.fundamentals ≤ 30)
      ∧ (0 ≤ (Scoring.scoreCandidate input Scoring.DEFAULT_SCORE_CONFIG).breakdown.liquidity
          ∧ (Scoring.scoreCandidate input Scoring.DEFAULT_SCORE_CONFIG).breakdown.liquidity ≤ 20)
      ∧ (0 ≤ (Scoring.scoreCandidate input Scoring.DEFAULT_SCORE_CONFIG).breakdown.volatility
          ∧ (Scoring.scoreCandidate input Scoring.DEFAULT_SCORE_CONFIG).breakdown.volatility ≤ 20)
      ∧ (0 ≤ (Scoring.scoreCandidate input Scoring.DEFAULT_SCORE_CONFIG).breakdown.trend
          ∧ (Scoring.scoreCandidate input Scoring.DEFAULT_SCORE_CONFIG).breakdown.trend ≤ 20)
      ∧ (0 ≤ (Scoring.scoreCandidate input Scoring.DEFAULT_SCORE_CONFIG).breakdown.eventRisk
          ∧ (Scoring.scoreCandidate input Scoring.DEFAULT_SCORE_CONFIG).breakdown.eventRisk ≤ 10)
      ∧ (Scoring.scoreCandidate input Scoring.DEFAULT_SCORE_CONFIG).total =
          (Scoring.scoreCandidate input Scoring.DEFAULT_SCORE_CONFIG).breakdown.total := by
  intro input
  have hf := scoreFundamentals_bounds input.fundamentals
  have hl := scoreLiquidity_bounds input.liquidityGate
  have hv := Scoring.clamp_bounds
    (20 * (Volatility.scoreVolatilityQuality input.impliedVol input.ivChangeRate
      Volatility.DEFAULT_CONFIG).scoreMultiplier) 0 20 (by norm_num)
  have ht := scoreTechnical_bounds input.trendScore
  have he := scoreEventRiskComponent_bounds input.eventRiskFlags
  have htotal := Scoring.clamp_bounds
    (Scoring.scoreFundamentals input.fundamentals 30
      + Scoring.scoreLiquidity input.liquidityGate 20
      + Scoring.clamp (20 * (Volatility.scoreVolatilityQuality input.impliedVol
          input.ivChangeRate Volatility.DEFAULT_CONFIG).scoreMultiplier) 0 20
      + Scoring.scoreTechnical input.trendScore 20
      + Scoring.scoreEventRiskComponent input.eventRiskFlags 10) 0 100 (by norm_num)
  refine ⟨rfl, ?_, ?_, ?_, ?_, ?_, ?_, rfl⟩
  · have := round_int_bounds _ 0 100 (by exact_mod_cast htotal.1) (by exact_mod_cast htotal.2)
    exact this
  · exact round_int_bounds _ 0 30 (by exact_mod_cast hf.1) (by exact_mod_cast hf.2)
  · exact round_int_bounds _ 0 20 (by exact_mod_cast hl.1) (by exact_mod_cast hl.2)
  · exact round_int_bounds _ 0 20 (by exact_mod_cast hv.1) (by exact_mod_cast hv.2)
  · exact round_int_bounds _ 0 20 (by exact_mod_cast ht.1) (by exact_mod_cast ht.2)
  · exact round_int_bounds _ 0 10 (by exact_mod_cast he.1) (by exact_mod_cast he.2)

/-- C5 counterexample: with a BEAR market and a BULL stock the two regimes
are not both BEAR, yet selectStrategies does not make PCS eligible — the
code requires that neither regime is BEAR. -/
theorem selectStrategies_pcs_needs_neither_bear :
    (Selector.selectStrategies exSelectionInput).marketRegime = .BEAR
    ∧ (Selector.selectStrategies exSelectionInput).stockRegime = .BULL
    ∧ StrategyType.PCS ∉ (Selector.selectStrategies exSelectionInput).strategies := by
  have hm : deriveRegime exBearTrend = .BEAR := by
    norm_num [deriveRegime, exBearTrend]
  have hs : deriveRegime exBullTrend = .BULL := by
    norm_num [deriveRegime, exBullTrend]
  refine ⟨?_, ?_, ?_⟩ <;>
    simp [Selector.selectStrategies, exSelectionInput, hm, hs, Selector.isHoldable]

/-- C5 as amended: PCS is eligible exactly when neither the market regime
nor the stock regime is BEAR (CSP additionally requires no defined-risk
bias), CCS is eligible exactly when the regimes are not both BULL (CC
additionally requires no defined-risk bias), where the bias is the
explicit preferDefinedRisk flag when given, else the negation of
holdability; assignmentEligible reports holdability. -/
theorem selectStrategies_eligibility :
    ∀ input : Selector.StrategySelectionInput,
      (StrategyType.PCS ∈ (Selector.selectStrategies input).strategies ↔
        ((Selector.selectStrategies input).marketRegime ≠ .BEAR ∧
          (Selector.selectStrategies input).stockRegime ≠ .BEAR))
      ∧ (StrategyType.CSP ∈ (Selector.selectStrategies input).strategies ↔
        (((Selector.selectStrategies input).marketRegime ≠ .BEAR ∧
            (Selector.selectStrategies input).stockRegime ≠ .BEAR) ∧
          input.preferDefinedRisk.getD (!(Selector.isHoldable input.fundamentals)) = false))
      ∧ (StrategyType.CCS ∈ (Selector.selectStrategies input).strategies ↔
        ¬((Selector.selectStrategies input).marketRegime = .BULL ∧
          (Selector.selectStrategies input).stockRegime = .BULL))
      ∧ (StrategyType.CC ∈ (Selector.selectStrategies input).strategies ↔
        (¬((Selector.selectStrategies input).marketRegime = .BULL ∧
            (Selector.selectStrategies input).stockRegime = .BULL) ∧
          input.preferDefinedRisk.getD (!(Selector.isHoldable input.fundamentals)) = false))
      ∧ (Selector.selectStrategies input).assignmentEligible =
          Selector.isHoldable input.fundamentals := by
  intro input
  cases hM : deriveRegime input.marketTrend <;>
    cases hS : deriveRegime input.stockTrend <;>
    cases hB : input.preferDefinedRisk.getD (!(Selector.isHoldable input.fundamentals)) <;>
    simp [Selector.selectStrategies, hM, hS, hB]

/-- C6 counterexample: a calendar whose only macro event is 30 days out —
beyond the 14-day macro horizon — still receives RISK_MACRO_EVENT and the
macro penalty (multiplier 1 − 0.2): scoreEventRisk only checks that the
macro-event list is non-empty, never the horizon. -/
theorem scoreEventRisk_macro_ignores_horizon :
    RiskFlag.RISK_MACRO_EVENT ∈
      (EventScoring.scoreEventRisk [] (some exMacroCalendar) (some 45)
        EventScoring.DEFAULT_CONFIG).riskFlags
    ∧ (∀ e ∈ exMacroCalendar.macroEvents, (14 : ℤ) < e.date)
    ∧ EventScoring.DEFAULT_CONFIG.macroHorizonDays = 14
    ∧ (EventScoring.scoreEventRisk [] (some exMacroCalendar) (some 45)
        EventScoring.DEFAULT_CONFIG).scoreMultiplier = 0.8 := by
  refine ⟨by decide, by decide, rfl, ?_⟩
  show max 0 (1 - (0.2 : ℚ)) = 0.8
  norm_num

/-- The earnings horizon test holds exactly for a present, non-negative
day count within the horizon. -/
theorem withinHorizon_iff (days : Option ℚ) (horizon : ℚ) :
    EventScoring.withinHorizon days horizon = true ↔
      ∃ d, days = some d ∧ 0 ≤ d ∧ d ≤ horizon := by
  cases days <;> simp [EventScoring.withinHorizon, and_assoc]

/-- C6 as amended: scoreEventRisk adds RISK_MACRO_EVENT and subtracts the
macro penalty exactly when the calendar's macro-event list is non-empty
(the 14-day horizon filter lives in the calendar provider, not here);
earnings within the trade's DTE window add RISK_EARNINGS_WITHIN_TRADE and
the earnings penalty; the multiplier never goes below 0. -/
theorem scoreEventRisk_flags_spec :
    ∀ (baseFlags : List RiskFlag) (calendar : Option CalendarSnapshot)
      (tradeDte : Option ℚ) (config : EventScoring.EventScoreConfig),
      (RiskFlag.RISK_MACRO_EVENT ∈
          (EventScoring.scoreEventRisk baseFlags calendar tradeDte config).riskFlags ↔
        (RiskFlag.RISK_MACRO_EVENT ∈ baseFlags ∨
          ∃ cal, calendar = some cal ∧ cal.macroEvents ≠ []))
      ∧ (RiskFlag.RISK_EARNINGS_WITHIN_TRADE ∈
          (EventScoring.scoreEventRisk baseFlags calendar tradeDte config).riskFlags ↔
        (RiskFlag.RISK_EARNINGS_WITHIN_TRADE ∈ baseFlags ∨
          ∃ cal dte d, calendar = some cal ∧ tradeDte = some dte ∧
            cal.earnings.daysToEarnings = some d ∧ 0 ≤ d ∧ d ≤ dte))
      ∧ 0 ≤ (EventScoring.scoreEventRisk baseFlags calendar tradeDte config).scoreMultiplier
      ∧ (EventScoring.scoreEventRisk baseFlags calendar tradeDte config).scoreMultiplier =
          max 0 (1
            - (if (match calendar, tradeDte with
                   | some cal, some dte =>
                     EventScoring.withinHorizon cal.earnings.daysToEarnings dte
                   | _, _ => false) = true then config.earningsPenalty else 0)
            - (if (match calendar with
                   | some cal => !cal.macroEvents.isEmpty
                   | none => false) = true then config.macroPenalty else 0)) := by
  intro baseFlags calendar tradeDte config
  refine ⟨?_, ?_, le_max_left _ _, ?_⟩
  · unfold EventScoring.scoreEventRisk
    rcases calendar with _ | cal
    · simp [mem_dedupFlags]
    · rcases tradeDte with _ | dte
      · rcases hml : cal.macroEvents with _ | ⟨e, es⟩ <;>
          simp [hml, mem_addFlag, mem_dedupFlags]
      · cases hear : EventScoring.withinHorizon cal.earnings.daysToEarnings dte <;>
          rcases hml : cal.macroEvents with _ | ⟨e, es⟩ <;>
          simp [hear, hml, mem_addFlag, mem_dedupFlags]
  · unfold EventScoring.scoreEventRisk
    rcases calendar with _ | cal
    · simp [mem_dedupFlags]
    · rcases tradeDte with _ | dte
      · rcases hml : cal.macroEvents with _ | ⟨e, es⟩ <;>
          simp [hml, mem_addFlag, mem_dedupFlags]
      · cases hear : EventScoring.withinHorizon cal.earnings.daysToEarnings dte
        · have hno : ¬ ∃ d, cal.earnings.daysToEarnings = some d ∧ 0 ≤ d ∧ d ≤ dte := by
            rw [← withinHorizon_iff _ dte, hear]
            simp
          rcases hml : cal.macroEvents with _ | ⟨e, es⟩ <;>
            simp [hear, hml, mem_addFlag, mem_dedupFlags, hno]
        · have hyes : ∃ d, cal.earnings.daysToEarnings = some d ∧ 0 ≤ d ∧ d ≤ dte :=
            (withinHorizon_iff _ _).mp hear
          rcases hml : cal.macroEvents with _ | ⟨e, es⟩ <;>
            simp [hear, hml, mem_addFlag, mem_dedupFlags, hyes]
  · unfold EventScoring.scoreEventRisk
    rcases calendar with _ | cal
    · simp
    · rcases tradeDte with _ | dte
      · rcases hml : cal.macroEvents with _ | ⟨e, es⟩ <;> simp [hml]
      · cases hear : EventScoring.withinHorizon cal.earnings.daysToEarnings dte <;>
          rcases hml : cal.macroEvents with _ | ⟨e, es⟩ <;>
          simp [hear, hml]

/-- Equation of findStrikeCandidate on an empty chain. -/
theorem findStrikeCandidate_empty (chain : OptionChainSnapshot) (underlyingPrice : ℚ)
    (strategy : StrategyType) (cfg : StrikeFinder.StrikeFinderConfig)
    (h : chain.contracts = []) :
    StrikeFinder.findStrikeCandidate chain underlyingPrice strategy cfg =
      { strategy := strategy, shortStrike := 0, longStrike := none, credit := 0
        maxLoss := 0, breakeven := 0, thetaPerDay := 0, pop := 0, shortDelta := none
        reasons := [.NO_TRADE] } := by
  unfold StrikeFinder.findStrikeCandidate
  simp [h]

/-- Equation of findStrikeCandidate when no short strike qualifies. -/
theorem findStrikeCandidate_no_short (chain : OptionChainSnapshot) (underlyingPrice : ℚ)
    (strategy : StrategyType) (cfg : StrikeFinder.StrikeFinderConfig)
    (h : chain.contracts ≠ [])
    (hsel : (StrikeFinder.selectShortStrike chain.contracts underlyingPrice
      (StrikeFinder.getStrategyConfig strategy cfg) cfg).strike = none) :
    StrikeFinder.findStrikeCandidate chain underlyingPrice strategy cfg =
      { strategy := strategy, shortStrike := 0, longStrike := none, credit := 0
        maxLoss := 0, breakeven := 0, thetaPerDay := 0, pop := 0, shortDelta := none
        reasons := [.NO_VALID_SHORT_STRIKE] } := by
  unfold StrikeFinder.findStrikeCandidate
  simp [List.isEmpty_iff, h, hsel]

/-- Equation of findStrikeCandidate on the single-leg success path. -/
theorem findStrikeCandidate_single_leg (chain : OptionChainSnapshot) (underlyingPrice : ℚ)
    (strategy : StrategyType) (cfg : StrikeFinder.StrikeFinderConfig) (short : OptionContract)
    (h : chain.contracts ≠ [])
    (hsel : (StrikeFinder.selectShortStrike chain.contracts underlyingPrice
      (StrikeFinder.getStrategyConfig strategy cfg) cfg).strike = some short)
    (hsc : strategy = .CSP ∨ strategy = .CC) :
    StrikeFinder.findStrikeCandidate chain underlyingPrice strategy cfg =
      StrikeFinder.applyCreditGuardrails (StrikeFinder.buildCandidate strategy short none [])
        short none cfg := by
  unfold StrikeFinder.findStrikeCandidate
  rcases hsc with rfl | rfl <;> simp [List.isEmpty_iff, h, hsel]

/-- Equation of findStrikeCandidate when a spread finds no long strike. -/
theorem findStrikeCandidate_no_long (chain : OptionChainSnapshot) (underlyingPrice : ℚ)
    (strategy : StrategyType) (cfg : StrikeFinder.StrikeFinderConfig) (short : OptionContract)
    (h : chain.contracts ≠ [])
    (hsel : (StrikeFinder.selectShortStrike chain.contracts underlyingPrice
      (StrikeFinder.getStrategyConfig strategy cfg) cfg).strike = some short)
    (hps : strategy = .PCS ∨ strategy = .CCS)
    (hlong : StrikeFinder.selectLongStrike chain.contracts short.strike
      (StrikeFinder.getStrategyConfig strategy cfg).side cfg.spreadWidthMin
      cfg.spreadWidthMax = none) :
    StrikeFinder.findStrikeCandidate chain underlyingPrice strategy cfg =
      { strategy := strategy, shortStrike := short.strike, longStrike := none
        credit := 0, maxLoss := 0, breakeven := 0, thetaPerDay := 0, pop := 0
        shortDelta := short.delta, reasons := [.NO_VALID_LONG_STRIKE] } := by
  unfold StrikeFinder.findStrikeCandidate
  rcases hps with rfl | rfl <;> simp [List.isEmpty_iff, h, hsel, hlong]

/-- Equation of findStrikeCandidate on the spread success path. -/
theorem findStrikeCandidate_spread (chain : OptionChainSnapshot) (underlyingPrice : ℚ)
    (strategy : StrategyType) (cfg : StrikeFinder.StrikeFinderConfig)
    (short long : OptionContract)
    (h : chain.contracts ≠ [])
    (hsel : (StrikeFinder.selectShortStrike chain.contracts underlyingPrice
      (StrikeFinder.getStrategyConfig strategy cfg) cfg).strike = some short)
    (hps : strategy = .PCS ∨ strategy = .CCS)
    (hlong : StrikeFinder.selectLongStrike chain.contracts short.strike
      (StrikeFinder.getStrategyConfig strategy cfg).side cfg.spreadWidthMin
      cfg.spreadWidthMax = some long) :
    StrikeFinder.findStrikeCandidate chain underlyingPrice strategy cfg =
      StrikeFinder.applyCreditGuardrails
        (StrikeFinder.buildCandidate strategy short (some long) []) short (some long) cfg := by
  unfold StrikeFinder.findStrikeCandidate
  rcases hps with rfl | rfl <;> simp [List.isEmpty_iff, h, hsel, hlong]

/-- The guardrails only touch the reasons list. -/
theorem applyCreditGuardrails_shortStrike (candidate : StrikeFinder.StrikeCandidate)
    (short : OptionContract) (long : Option OptionContract)
    (cfg : StrikeFinder.StrikeFinderConfig) :
    (StrikeFinder.applyCreditGuardrails candidate short long cfg).shortStrike =
      candidate.shortStrike := rfl

/-- The guardrails only touch the reasons list. -/
theorem applyCreditGuardrails_shortDelta (candidate : StrikeFinder.StrikeCandidate)
    (short : OptionContract) (long : Option OptionContract)
    (cfg : StrikeFinder.StrikeFinderConfig) :
    (StrikeFinder.applyCreditGuardrails candidate short long cfg).shortDelta =
      candidate.shortDelta := rfl

/-- buildCandidate copies the short contract's strike. -/
theorem buildCandidate_shortStrike (strategy : StrategyType) (short : OptionContract)
    (long : Option OptionContract) (reasons : List StrikeFinder.StrikeFinderReasonCode) :
    (StrikeFinder.buildCandidate strategy short long reasons).shortStrike = short.strike := rfl

/-- buildCandidate copies the short contract's delta. -/
theorem buildCandidate_shortDelta (strategy : StrategyType) (short : OptionContract)
    (long : Option OptionContract) (reasons : List StrikeFinder.StrikeFinderReasonCode) :
    (StrikeFinder.buildCandidate strategy short long reasons).shortDelta = short.delta := rfl

/-- C10: each terminal failure of findStrikeCandidate returns exactly one
reason and zeroed economics; the empty-chain and no-short-strike failures
zero the strike and delta, while the no-long-strike failure keeps the
resolved short contract's strike and delta. -/
theorem findStrikeCandidate_failure_modes :
    ∀ (chain : OptionChainSnapshot) (underlyingPrice : ℚ) (strategy : StrategyType)
      (cfg : StrikeFinder.StrikeFinderConfig),
      (chain.contracts = [] →
        StrikeFinder.findStrikeCandidate chain underlyingPrice strategy cfg =
          { strategy := strategy, shortStrike := 0, longStrike := none, credit := 0
            maxLoss := 0, breakeven := 0, thetaPerDay := 0, pop := 0, shortDelta := none
            reasons := [.NO_TRADE] })
      ∧ (chain.contracts ≠ [] →
          (StrikeFinder.selectShortStrike chain.contracts underlyingPrice
            (StrikeFinder.getStrategyConfig strategy cfg) cfg).strike = none →
          StrikeFinder.findStrikeCandidate chain underlyingPrice strategy cfg =
            { strategy := strategy, shortStrike := 0, longStrike := none, credit := 0
              maxLoss := 0, breakeven := 0, thetaPerDay := 0, pop := 0, shortDelta := none
              reasons := [.NO_VALID_SHORT_STRIKE] })
      ∧ (∀ short : OptionContract, chain.contracts ≠ [] →
          (StrikeFinder.selectShortStrike chain.contracts underlyingPrice
            (StrikeFinder.getStrategyConfig strategy cfg) cfg).strike = some short →
          (strategy = .PCS ∨ strategy = .CCS) →
          StrikeFinder.selectLongStrike chain.contracts short.strike
            (StrikeFinder.getStrategyConfig strategy cfg).side cfg.spreadWidthMin
            cfg.spreadWidthMax = none →
          StrikeFinder.findStrikeCandidate chain underlyingPrice strategy cfg =
            { strategy := strategy, shortStrike := short.strike, longStrike := none
              credit := 0, maxLoss := 0, breakeven := 0, thetaPerDay := 0, pop := 0
              shortDelta := short.delta, reasons := [.NO_VALID_LONG_STRIKE] }) := by
  intro chain underlyingPrice strategy cfg
  exact ⟨findStrikeCandidate_empty chain underlyingPrice strategy cfg,
    findStrikeCandidate_no_short chain underlyingPrice strategy cfg,
    fun short h hsome hps hlnone =>
      findStrikeCandidate_no_long chain underlyingPrice strategy cfg short h hsome hps hlnone⟩

/-- The fold that models `sort(...)[0]` picks an element of the list. -/
theorem foldlBest_mem {α : Type} (f : α → α → Bool) (l : List α) (a : α) :
    (l.foldl (fun best x => if f x best then x else best) a) ∈ a :: l := by
  induction l generalizing a with
  | nil => simp
  | cons x xs ih =>
    simp only [List.foldl_cons]
    rcases List.mem_cons.mp (ih (if f x a then x else a)) with h | h
    · rw [h]
      split
    -- the fold's seed is either x or a, both members of a :: x :: xs
      · exact List.mem_cons_of_mem _ (List.mem_cons_self _ _)
      · exact List.mem_cons_self _ _
    · exact List.mem_cons_of_mem _ (List.mem_cons_of_mem _ h)

/-- The fold that models `sort(...)[0]` picks a minimal element: no list
element sorts strictly before it.  `f` must be a strict weak order:
irreflexive, transitive, and negatively transitive. -/
theorem foldlBest_min {α : Type} (f : α → α → Bool)
    (hirr : ∀ x, f x x = false)
    (htrans : ∀ x y z, f x y = true → f y z = true → f x z = true)
    (hneg : ∀ x y z, f x y = false → f y z = false → f x z = false)
    (l : List α) (a : α) :
    ∀ c ∈ a :: l, f c (l.foldl (fun best x => if f x best then x else best) a) = false := by
  induction l generalizing a with
  | nil =>
    intro c hc
    rcases List.mem_cons.mp hc with rfl | h
    · simpa using hirr c
    · simp at h
  | cons x xs ih =>
    intro c hc
    simp only [List.foldl_cons]
    rcases List.mem_cons.mp hc with rfl | hc2
    · cases hfx : f x c with
      | false =>
        simp only [hfx, Bool.false_eq_true, if_neg, ite_false]
        exact ih c c (List.mem_cons_self _ _)
      | true =>
        simp only [hfx, ite_true]
        cases har : f c (xs.foldl (fun best y => if f y best then y else best) x) with
        | false => rfl
        | true =>
          have hxr := htrans x c _ hfx har
          have hxf := ih x x (List.mem_cons_self _ _)
          rw [hxf] at hxr
          exact hxr.symm
    · cases hfx : f x a with
      | false =>
        simp only [hfx, Bool.false_eq_true, if_neg, ite_false]
        rcases List.mem_cons.mp hc2 with rfl | hc3
        · exact hneg c a _ hfx (ih a a (List.mem_cons_self _ _))
        · exact ih a c (List.mem_cons_of_mem _ hc3)
      | true =>
        simp only [hfx, ite_true]
        exact ih x c hc2

/-- selectBest returns a member of its list. -/
theorem selectBest_mem (t : ℚ) (l : List OptionContract) (c : OptionContract) :
    StrikeFinder.selectBest t l = some c → c ∈ l := by
  cases l with
  | nil => simp [StrikeFinder.selectBest]
  | cons h tl =>
    intro hs
    have := foldlBest_mem (StrikeFinder.shortSortLt t) tl h
    simp only [StrikeFinder.selectBest, Option.some.injEq] at hs
    rw [hs] at this
    exact this

/-- The strike field of selectShortStrike is the best of the filtered
contracts. -/
theorem selectShortStrike_strike (contracts : List OptionContract) (u : ℚ)
    (sc : StrikeFinder.StrategyStrikeConfig) (cfg : StrikeFinder.StrikeFinderConfig) :
    (StrikeFinder.selectShortStrike contracts u sc cfg).strike =
      StrikeFinder.selectBest sc.targetDelta (StrikeFinder.shortFiltered contracts u sc cfg) :=
  rfl

/-- Every contract of the filtered pool passes the OTM, delta and
liquidity tests on the strategy's side. -/
theorem shortFiltered_props (contracts : List OptionContract) (u : ℚ)
    (sc : StrikeFinder.StrategyStrikeConfig) (cfg : StrikeFinder.StrikeFinderConfig)
    (c : OptionContract) (hmem : c ∈ StrikeFinder.shortFiltered contracts u sc cfg) :
    StrikeFinder.isValidOtm (StrikeFinder.calcOtmPct u c.strike sc.side) cfg
        sc.minOtmPct sc.maxOtmPct = true
    ∧ StrikeFinder.inDeltaBand c.delta sc.deltaMin sc.deltaMax = true
    ∧ StrikeFinder.isLiquidShort c cfg = true
    ∧ c.side = sc.side := by
  unfold StrikeFinder.shortFiltered StrikeFinder.shortSideContracts at hmem
  obtain ⟨hmem1, hpred⟩ := List.mem_filter.mp hmem
  obtain ⟨_, hside⟩ := List.mem_filter.mp hmem1
  simp only [Bool.and_eq_true] at hpred
  exact ⟨hpred.1.1, hpred.1.2, hpred.2, of_decide_eq_true hside⟩

/-- A passing OTM test puts the OTM percentage inside the band. -/
theorem isValidOtm_bounds (otmPct : ℚ) (cfg : StrikeFinder.StrikeFinderConfig)
    (lo hi : ℚ) (h : StrikeFinder.isValidOtm otmPct cfg lo hi = true) :
    lo ≤ otmPct ∧ otmPct ≤ hi := by
  unfold StrikeFinder.isValidOtm at h
  split at h
  · exact absurd h (by simp)
  · simp only [Bool.and_eq_true, decide_eq_true_eq] at h
    exact h

/-- A passing delta test exposes a present delta inside the band. -/
theorem inDeltaBand_bounds (delta : Option ℚ) (lo hi : ℚ)
    (h : StrikeFinder.inDeltaBand delta lo hi = true) :
    ∃ d, delta = some d ∧ lo ≤ |d| ∧ |d| ≤ hi := by
  cases delta with
  | none => exact absurd h (by simp [StrikeFinder.inDeltaBand])
  | some d =>
    simp only [StrikeFinder.inDeltaBand, Bool.and_eq_true, decide_eq_true_eq] at h
    exact ⟨d, rfl, h.1, h.2⟩

/-- C1: whenever findStrikeCandidate returns a candidate with no reasons,
the short strike's OTM percentage lies inside the active strategy's
[minOtmPct, maxOtmPct] band and the absolute short delta lies inside the
strategy's [deltaMin, deltaMax] band. -/
theorem findStrikeCandidate_otm_delta_bands
    (chain : OptionChainSnapshot) (underlyingPrice : ℚ) (strategy : StrategyType)
    (cfg : StrikeFinder.StrikeFinderConfig)
    (hres : (StrikeFinder.findStrikeCandidate chain underlyingPrice strategy cfg).reasons = []) :
    ((StrikeFinder.getStrategyConfig strategy cfg).minOtmPct ≤
        StrikeFinder.calcOtmPct underlyingPrice
          (StrikeFinder.findStrikeCandidate chain underlyingPrice strategy cfg).shortStrike
          (StrikeFinder.getStrategyConfig strategy cfg).side
      ∧ StrikeFinder.calcOtmPct underlyingPrice
          (StrikeFinder.findStrikeCandidate chain underlyingPrice strategy cfg).shortStrike
          (StrikeFinder.getStrategyConfig strategy cfg).side ≤
        (StrikeFinder.getStrategyConfig strategy cfg).maxOtmPct)
    ∧ ∃ d, (StrikeFinder.findStrikeCandidate chain underlyingPrice strategy cfg).shortDelta = some d
        ∧ (StrikeFinder.getStrategyConfig strategy cfg).deltaMin ≤ |d|
        ∧ |d| ≤ (StrikeFinder.getStrategyConfig strategy cfg).deltaMax := by
  by_cases hempty : chain.contracts = []
  · rw [findStrikeCandidate_empty chain underlyingPrice strategy cfg hempty] at hres
    simp at hres
  · cases hsel : (StrikeFinder.selectShortStrike chain.contracts underlyingPrice
        (StrikeFinder.getStrategyConfig strategy cfg) cfg).strike with
    | none =>
      rw [findStrikeCandidate_no_short chain underlyingPrice strategy cfg hempty hsel] at hres
      simp at hres
    | some short =>
      have hmem : short ∈ StrikeFinder.shortFiltered chain.contracts underlyingPrice
          (StrikeFinder.getStrategyConfig strategy cfg) cfg := by
        apply selectBest_mem (StrikeFinder.getStrategyConfig strategy cfg).targetDelta
        rw [← selectShortStrike_strike]
        exact hsel
      obtain ⟨hotm, hdelta, _, _⟩ :=
        shortFiltered_props chain.contracts underlyingPrice
          (StrikeFinder.getStrategyConfig strategy cfg) cfg short hmem
      obtain ⟨hlo, hhi⟩ := isValidOtm_bounds _ cfg _ _ hotm
      obtain ⟨d, hd, hdlo, hdhi⟩ := inDeltaBand_bounds _ _ _ hdelta
      by_cases hsc : strategy = .CSP ∨ strategy = .CC
      · rw [findStrikeCandidate_single_leg chain underlyingPrice strategy cfg short
          hempty hsel hsc, applyCreditGuardrails_shortStrike, buildCandidate_shortStrike,
          applyCreditGuardrails_shortDelta, buildCandidate_shortDelta]
        exact ⟨⟨hlo, hhi⟩, d, hd, hdlo, hdhi⟩
      · have hps : strategy = .PCS ∨ strategy = .CCS := by
          cases strategy <;> simp_all
        cases hlong : StrikeFinder.selectLongStrike chain.contracts short.strike
            (StrikeFinder.getStrategyConfig strategy cfg).side cfg.spreadWidthMin
            cfg.spreadWidthMax with
        | none =>
          rw [findStrikeCandidate_no_long chain underlyingPrice strategy cfg short
            hempty hsel hps hlong] at hres
          simp at hres
        | some long =>
          rw [findStrikeCandidate_spread chain underlyingPrice strategy cfg short long
            hempty hsel hps hlong, applyCreditGuardrails_shortStrike,
            buildCandidate_shortStrike, applyCreditGuardrails_shortDelta,
            buildCandidate_shortDelta]
          exact ⟨⟨hlo, hhi⟩, d, hd, hdlo, hdhi⟩

/-- The sort comparator holds exactly for the lexicographic order on
(delta distance, higher bid, tighter spread). -/
theorem shortSortLt_iff (t : ℚ) (a b : OptionContract) :
    StrikeFinder.shortSortLt t a b = true ↔
      (StrikeFinder.deltaDistance t a < StrikeFinder.deltaDistance t b
        ∨ (StrikeFinder.deltaDistance t a = StrikeFinder.deltaDistance t b
            ∧ (b.bid < a.bid
              ∨ (a.bid = b.bid
                ∧ StrikeFinder.spreadOrZero a < StrikeFinder.spreadOrZero b)))) := by
  unfold StrikeFinder.shortSortLt StrikeFinder.deltaDistance
  dsimp only
  by_cases h1 : |(|a.delta.getD 0|) - t| = |(|b.delta.getD 0|) - t|
  · rw [if_neg (fun hne => hne h1)]
    by_cases h2 : a.bid = b.bid
    · rw [if_neg (fun hne => hne h2)]
      constructor
      · intro h
        exact Or.inr ⟨h1, Or.inr ⟨h2, of_decide_eq_true h⟩⟩
      · rintro (h | ⟨-, h | ⟨-, h⟩⟩)
        · exact absurd h (by rw [h1]; exact lt_irrefl _)
        · exact absurd h (by rw [h2]; exact lt_irrefl _)
        · exact decide_eq_true h
    · rw [if_pos h2]
      constructor
      · intro h
        exact Or.inr ⟨h1, Or.inl (of_decide_eq_true h)⟩
      · rintro (h | ⟨-, h | ⟨heq, -⟩⟩)
        · exact absurd h (by rw [h1]; exact lt_irrefl _)
        · exact decide_eq_true h
        · exact absurd heq h2
  · rw [if_pos h1]
    constructor
    · intro h
      exact Or.inl (of_decide_eq_true h)
    · rintro (h | ⟨heq, -⟩)
      · exact decide_eq_true h
      · exact absurd heq h1

/-- The comparator is irreflexive. -/
theorem shortSortLt_irrefl (t : ℚ) (a : OptionContract) :
    StrikeFinder.shortSortLt t a a = false := by
  rw [Bool.eq_false_iff]
  intro h
  rcases (shortSortLt_iff t a a).mp h with h | ⟨-, h | ⟨-, h⟩⟩ <;> exact lt_irrefl _ h

/-- The comparator is transitive. -/
theorem shortSortLt_trans (t : ℚ) (x y z : OptionContract) :
    StrikeFinder.shortSortLt t x y = true → StrikeFinder.shortSortLt t y z = true →
    StrikeFinder.shortSortLt t x z = true := by
  intro h1 h2
  rw [shortSortLt_iff] at h1 h2 ⊢
  rcases h1 with h1 | ⟨e1, hb1⟩
  · rcases h2 with h2 | ⟨e2, -⟩
    · exact Or.inl (lt_trans h1 h2)
    · exact Or.inl (e2 ▸ h1)
  · rcases h2 with h2 | ⟨e2, hb2⟩
    · exact Or.inl (e1 ▸ h2)
    · refine Or.inr ⟨e1.trans e2, ?_⟩
      rcases hb1 with hb1 | ⟨be1, hs1⟩
      · rcases hb2 with hb2 | ⟨be2, -⟩
        · exact Or.inl (lt_trans hb2 hb1)
        · exact Or.inl (be2 ▸ hb1)
      · rcases hb2 with hb2 | ⟨be2, hs2⟩
        · exact Or.inl (be1 ▸ hb2)
        · exact Or.inr ⟨be1.trans be2, lt_trans hs1 hs2⟩

/-- The comparator is negatively transitive. -/
theorem shortSortLt_neg_trans (t : ℚ) (x y z : OptionContract) :
    StrikeFinder.shortSortLt t x y = false → StrikeFinder.shortSortLt t y z = false →
    StrikeFinder.shortSortLt t x z = false := by
  intro h1 h2
  rw [Bool.eq_false_iff] at h1 h2
  rw [Bool.eq_false_iff]
  intro h3
  have hp1 : ¬(StrikeFinder.deltaDistance t x < StrikeFinder.deltaDistance t y
      ∨ (StrikeFinder.deltaDistance t x = StrikeFinder.deltaDistance t y
          ∧ (y.bid < x.bid
            ∨ (x.bid = y.bid
              ∧ StrikeFinder.spreadOrZero x < StrikeFinder.spreadOrZero y)))) :=
    fun hp => h1 ((shortSortLt_iff t x y).mpr hp)
  have hp2 : ¬(StrikeFinder.deltaDistance t y < StrikeFinder.deltaDistance t z
      ∨ (StrikeFinder.deltaDistance t y = StrikeFinder.deltaDistance t z
          ∧ (z.bid < y.bid
            ∨ (y.bid = z.bid
              ∧ StrikeFinder.spreadOrZero y < StrikeFinder.spreadOrZero z)))) :=
    fun hp => h2 ((shortSortLt_iff t y z).mpr hp)
  push_neg at hp1 hp2
  rcases (shortSortLt_iff t x z).mp h3 with h | ⟨he, hb | ⟨hbe, hs⟩⟩
  · have := hp1.1
    have := hp2.1
    linarith
  · have hd1 := hp1.1
    have hd2 := hp2.1
    have e1 : StrikeFinder.deltaDistance t x = StrikeFinder.deltaDistance t y := by linarith
    have e2 : StrikeFinder.deltaDistance t y = StrikeFinder.deltaDistance t z := by linarith
    have hb1 := (hp1.2 e1).1
    have hb2 := (hp2.2 e2).1
    linarith
  · have hd1 := hp1.1
    have hd2 := hp2.1
    have e1 : StrikeFinder.deltaDistance t x = StrikeFinder.deltaDistance t y := by linarith
    have e2 : StrikeFinder.deltaDistance t y = StrikeFinder.deltaDistance t z := by linarith
    have hb1 := (hp1.2 e1).1
    have hb2 := (hp2.2 e2).1
    have be1 : x.bid = y.bid := by linarith
    have be2 : y.bid = z.bid := by linarith
    have hs1 := (hp1.2 e1).2 be1
    have hs2 := (hp2.2 e2).2 be2
    linarith

/-- C3: among the contracts surviving the OTM, delta and liquidity
filters, the selected short strike minimises the distance of its absolute
delta to the target delta, breaking ties by higher bid and then by
tighter spread; in the spec's PCS scenario over strikes 145 and 140 with
the delta band widened to [0.18, 0.25], strike 140 is selected. -/
theorem selectShortStrike_closest_to_target :
    (∀ (contracts : List OptionContract) (u : ℚ)
        (sc : StrikeFinder.StrategyStrikeConfig) (cfg : StrikeFinder.StrikeFinderConfig)
        (short : OptionContract),
      (StrikeFinder.selectShortStrike contracts u sc cfg).strike = some short →
      short ∈ StrikeFinder.shortFiltered contracts u sc cfg ∧
      ∀ c ∈ StrikeFinder.shortFiltered contracts u sc cfg,
        StrikeFinder.deltaDistance sc.targetDelta short <
            StrikeFinder.deltaDistance sc.targetDelta c
        ∨ (StrikeFinder.deltaDistance sc.targetDelta short =
              StrikeFinder.deltaDistance sc.targetDelta c
            ∧ (c.bid < short.bid
              ∨ (short.bid = c.bid
                ∧ StrikeFinder.spreadOrZero short ≤ StrikeFinder.spreadOrZero c))))
    ∧ (StrikeFinder.findStrikeCandidate exPcsChain 160 .PCS exPcsConfig).shortStrike = 140 := by
  constructor
  · intro contracts u sc cfg short hsel
    have hsel1 : StrikeFinder.selectBest sc.targetDelta
        (StrikeFinder.shortFiltered contracts u sc cfg) = some short := by
      rw [← selectShortStrike_strike]
      exact hsel
    refine ⟨selectBest_mem _ _ _ hsel1, ?_⟩
    intro c hc
    have hmin : StrikeFinder.shortSortLt sc.targetDelta c short = false := by
      rcases hl : StrikeFinder.shortFiltered contracts u sc cfg with _ | ⟨h0, t0⟩
      · rw [hl] at hc
        simp at hc
      · have hfold := foldlBest_min (StrikeFinder.shortSortLt sc.targetDelta)
          (shortSortLt_irrefl sc.targetDelta)
          (shortSortLt_trans sc.targetDelta)
          (shortSortLt_neg_trans sc.targetDelta) t0 h0 c (hl ▸ hc)
        have hsel2 : StrikeFinder.selectBest sc.targetDelta (h0 :: t0) = some short := by
          rw [← hl]
          exact hsel1
        simp only [StrikeFinder.selectBest, Option.some.injEq] at hsel2
        rw [hsel2] at hfold
        exact hfold
    have hnot : ¬(StrikeFinder.deltaDistance sc.targetDelta c <
          StrikeFinder.deltaDistance sc.targetDelta short
        ∨ (StrikeFinder.deltaDistance sc.targetDelta c =
              StrikeFinder.deltaDistance sc.targetDelta short
            ∧ (short.bid < c.bid
              ∨ (c.bid = short.bid
                ∧ StrikeFinder.spreadOrZero c < StrikeFinder.spreadOrZero short)))) :=
      fun hp => (Bool.eq_false_iff.mp hmin) ((shortSortLt_iff _ _ _).mpr hp)
    push_neg at hnot
    rcases lt_or_eq_of_le hnot.1 with hlt | heq
    · exact Or.inl hlt
    · have h2 := hnot.2 heq.symm
      rcases lt_or_eq_of_le h2.1 with hblt | hbeq
      · exact Or.inr ⟨heq, Or.inl hblt⟩
      · exact Or.inr ⟨heq, Or.inr ⟨hbeq.symm, h2.2 hbeq⟩⟩
  · norm_num [StrikeFinder.findStrikeCandidate, StrikeFinder.DEFAULT_CONFIG, exPcsChain,
      exPcsContractA, exPcsContractB, exPcsConfig, StrikeFinder.selectShortStrike,
      StrikeFinder.shortFiltered, StrikeFinder.shortSideContracts,
      StrikeFinder.getStrategyConfig, StrikeFinder.isValidOtm, StrikeFinder.inDeltaBand,
      StrikeFinder.isLiquidShort, StrikeFinder.calcSpreadPct, StrikeFinder.calcMid,
      StrikeFinder.calcOtmPct, StrikeFinder.selectBest, StrikeFinder.shortSortLt,
      StrikeFinder.spreadOrZero, StrikeFinder.selectLongStrike, StrikeFinder.buildCandidate,
      StrikeFinder.applyCreditGuardrails, StrikeFinder.calcCredit, List.filter,
      abs_of_nonneg, abs_of_nonpos, abs_neg]
    split <;> rfl

/-- C1 witness: the single-contract CSP chain at underlying 160 resolves
with no reasons, and its short strike and delta respect the CSP bands. -/
theorem findStrikeCandidate_otm_delta_bands_witness :
    ((StrikeFinder.getStrategyConfig .CSP StrikeFinder.DEFAULT_CONFIG).minOtmPct ≤
        StrikeFinder.calcOtmPct 160
          (StrikeFinder.findStrikeCandidate exCspChain 160 .CSP StrikeFinder.DEFAULT_CONFIG).shortStrike
          (StrikeFinder.getStrategyConfig .CSP StrikeFinder.DEFAULT_CONFIG).side
      ∧ StrikeFinder.calcOtmPct 160
          (StrikeFinder.findStrikeCandidate exCspChain 160 .CSP StrikeFinder.DEFAULT_CONFIG).shortStrike
          (StrikeFinder.getStrategyConfig .CSP StrikeFinder.DEFAULT_CONFIG).side ≤
        (StrikeFinder.getStrategyConfig .CSP StrikeFinder.DEFAULT_CONFIG).maxOtmPct)
    ∧ ∃ d, (StrikeFinder.findStrikeCandidate exCspChain 160 .CSP StrikeFinder.DEFAULT_CONFIG).shortDelta = some d
        ∧ (StrikeFinder.getStrategyConfig .CSP StrikeFinder.DEFAULT_CONFIG).deltaMin ≤ |d|
        ∧ |d| ≤ (StrikeFinder.getStrategyConfig .CSP StrikeFinder.DEFAULT_CONFIG).deltaMax :=
  findStrikeCandidate_otm_delta_bands exCspChain 160 .CSP StrikeFinder.DEFAULT_CONFIG (by
    norm_num [StrikeFinder.findStrikeCandidate, StrikeFinder.DEFAULT_CONFIG, exCspChain,
      exCspContract, StrikeFinder.selectShortStrike, StrikeFinder.shortFiltered,
      StrikeFinder.shortSideContracts, StrikeFinder.getStrategyConfig, StrikeFinder.isValidOtm,
      StrikeFinder.inDeltaBand, StrikeFinder.isLiquidShort, StrikeFinder.calcSpreadPct,
      StrikeFinder.calcMid, StrikeFinder.calcOtmPct, StrikeFinder.selectBest,
      StrikeFinder.buildCandidate, StrikeFinder.applyCreditGuardrails, StrikeFinder.calcCredit,
      List.filter, abs_of_nonneg, abs_of_nonpos, abs_neg])

/-- A successful bullet build yields at least one bullet: the calendar
section always pushes exactly one sentence. -/
theorem buildWhyBullets_length_pos :
    ∀ (input : Explain.ExplanationInput) (raw : List Explain.Bullet),
      Explain.buildWhyBullets input = some raw → 1 ≤ raw.length := by
  intro input raw h
  unfold Explain.buildWhyBullets at h
  cases hv : input.volatility with
  | none => rw [hv] at h; simp at h
  | some v =>
    rw [hv] at h
    cases hl : input.liquidity with
    | none => rw [hl] at h; simp at h
    | some lg =>
      rw [hl] at h
      cases hf : input.fundamentals with
      | none => rw [hf] at h; simp at h
      | some f =>
        rw [hf] at h
        cases hc : input.calendar with
        | none => rw [hc] at h; simp at h
        | some cal =>
          rw [hc] at h
          simp only [Option.bind_eq_bind, Option.some_bind, Option.pure_def,
            Option.some.injEq] at h
          subst h
          simp only [List.length_append]
          have h7 : (1:ℕ) ≤ (match cal.earnings.daysToEarnings with
            | some days =>
              if (match input.tradeDte with | .val d => d | _ => 21) < days
              then [Explain.Bullet.noEarningsWithinHorizon]
              else [Explain.Bullet.earningsInDays]
            | none => [Explain.Bullet.noUpcomingEarnings]).length := by
            cases cal.earnings.daysToEarnings with
            | none => exact le_refl 1
            | some days =>
              dsimp only
              split <;> exact le_refl 1
          omega

/-- C9: whenever buildExplanation succeeds on an input carrying a score,
the why list has at least three and at most six bullets. -/
theorem buildExplanation_why_bounds :
    ∀ (input : Explain.ExplanationInput) (result : Explain.ExplanationResult),
      input.score.isSome = true →
      Explain.buildExplanation input = some result →
      3 ≤ result.why.length ∧ result.why.length ≤ 6 := by
  intro input result hscore hres
  obtain ⟨s, hs⟩ := Option.isSome_iff_exists.mp hscore
  unfold Explain.buildExplanation at hres
  cases hraw : Explain.buildWhyBullets input with
  | none => rw [hraw] at hres; simp at hres
  | some raw =>
    have h1 : 1 ≤ raw.length := buildWhyBullets_length_pos input raw hraw
    rw [hraw, hs] at hres
    simp only [Option.bind_eq_bind, Option.some_bind, Option.pure_def,
      Option.some.injEq] at hres
    subst hres
    simp only [apply_ite List.length, List.length_append, List.length_take,
      List.length_cons, List.length_nil]
    split_ifs <;> simp_all [List.length_take] <;> omega

/-- C9 witness: the concrete input with one organic bullet and a score
yields exactly three bullets. -/
theorem buildExplanation_why_bounds_witness :
    3 ≤ exExplainResult.why.length ∧ exExplainResult.why.length ≤ 6 :=
  buildExplanation_why_bounds exExplainInput exExplainResult rfl rfl

end Hercules
